import Mathlib

/-!
Shallow embedding of the CitySim engine (`game_logic.py`, class `CitySimulation`)
and proofs about the frozen claims concerning it.

Modelling conventions:
* Python `(row, col)` tuples become `GPos := Int × Int`.
* The grid (a 5×5 list of lists holding `None` or occupant strings) becomes a
  total function `GPos → Cell`; every grid access in the source is guarded by
  `is_valid_position`, so the representation is observationally equivalent.
* Python dicts keyed by positions become ordered association lists
  (`List (GPos × _)`) with Python-dict update semantics (`pget` / `pset` /
  `premove`); Python sets of positions become lists with membership-guarded
  insertion (`sadd`).
* Python floats (`money`, `tax_rate`, ...) are modelled by `ℚ`.
* The two `while` loops of the source (`update_power_distribution`'s BFS and
  `add_traffic_to_path`) are embedded with an explicit fuel argument large
  enough to cover every run that the Python loops perform.
* `random.random()` draws are turned into explicit parameters.
-/

namespace CitySim

/-- A board position `(row, col)`, as in the Python tuples. -/
abbrev GPos := Int × Int

/-- Occupant tag of a grid cell: `Cell.empty` is Python's `None`, the other
constructors are the occupant strings of `CitySimulation`. -/
inductive Cell where
  | empty
  | R | C | I | P
  | school | hospital | powerPlant | road
  | police | fireStation | airport | stadium | mall | university
  | powerLine
  | roadNone | roadH | roadV | roadCross
  | roadTUp | roadTDown | roadTLeft | roadTRight
  | roadCornerUL | roadCornerUR | roadCornerDL | roadCornerDR
  deriving DecidableEq, Repr

/-- `ZONED_EMPTY / ZONED_DEVELOPING / ZONED_OPERATING / ZONED_ABANDONED`. -/
inductive BState where
  | zonedEmpty | zonedDeveloping | zonedOperating | zonedAbandoned
  deriving DecidableEq, Repr

/-- Python dict lookup `m.get(p)` (returns `None` when absent). -/
def pget {V : Type} : List (GPos × V) → GPos → Option V
  | [], _ => none
  | (q, w) :: rest, p => if q = p then some w else pget rest p

/-- Python dict update `m[p] = v`, preserving insertion order. -/
def pset {V : Type} : List (GPos × V) → GPos → V → List (GPos × V)
  | [], p, v => [(p, v)]
  | (q, w) :: rest, p, v => if q = p then (p, v) :: rest else (q, w) :: pset rest p v

/-- Python dict removal `m.pop(p, None)`. -/
def premove {V : Type} (m : List (GPos × V)) (p : GPos) : List (GPos × V) :=
  m.filter (fun e => decide (e.1 ≠ p))

/-- Python set insertion `s.add(p)`. -/
def sadd (s : List GPos) (p : GPos) : List GPos :=
  if p ∈ s then s else s ++ [p]

/-- An installed or catalog event (the event dicts of the source; absent dict
keys are `none`). -/
structure EventData where
  name : String
  etype : String
  description : String
  probability : ℚ
  eff_money : Option ℚ
  eff_happiness : Option Int
  eff_mult : Option ℚ
  duration : Option Int
  remaining_duration : Option Int
  deriving DecidableEq, Repr

/-- An entry of `event_history`. -/
structure EventHist where
  name : String
  description : String
  etype : String
  year : Int
  deriving DecidableEq, Repr

/-- An entry of `achievement_history`. -/
structure AchHist where
  id : String
  name : String
  description : String
  icon : String
  year : Int
  deriving DecidableEq, Repr

/-- An active disaster record. -/
structure DisasterData where
  dtype : String
  row : Int
  col : Int
  severity : Int
  duration : Int
  remaining_duration : Int
  deriving DecidableEq, Repr

/-- The full engine state: the attributes set in `CitySimulation.__init__`. -/
structure City where
  grid : GPos → Cell
  current_year : Int
  population : Int
  happiness : Int
  money : ℚ
  tax_rate : ℚ
  income : ℚ
  expenses : ℚ
  events : List EventData
  event_history : List EventHist
  achievements : List String
  achievement_history : List AchHist
  building_states : List (GPos × BState)
  desirability_scores : List (GPos × Int)
  power_network : List GPos
  road_network : List GPos
  traffic_levels : List (GPos × Int)
  disasters : List DisasterData
  daily_revenue : ℚ
  daily_maintenance : ℚ

/-- `GRID_SIZE`. -/
def GRID_SIZE : Int := 5

/-- A fresh `CitySimulation()`. -/
def City.init : City where
  grid := fun _ => Cell.empty
  current_year := 1
  population := 0
  happiness := 50
  money := 10000
  tax_rate := 5 / 100
  income := 0
  expenses := 0
  events := []
  event_history := []
  achievements := []
  achievement_history := []
  building_states := []
  desirability_scores := []
  power_network := []
  road_network := []
  traffic_levels := []
  disasters := []
  daily_revenue := 0
  daily_maintenance := 0

/-- `BUILDING_COSTS.get(t, 0)`. -/
def building_costs : Cell → ℚ
  | Cell.R => 500
  | Cell.C => 800
  | Cell.I => 1000
  | Cell.P => 300
  | Cell.school => 2000
  | Cell.hospital => 3000
  | Cell.powerPlant => 2500
  | Cell.road => 200
  | Cell.police => 4000
  | Cell.fireStation => 3500
  | Cell.airport => 15000
  | Cell.stadium => 8000
  | Cell.mall => 6000
  | Cell.university => 10000
  | _ => 0

/-- `MAINTENANCE_COSTS.get(t, 0)`. -/
def maintenance_costs : Cell → ℚ
  | Cell.R => 50
  | Cell.C => 100
  | Cell.I => 150
  | Cell.P => 30
  | Cell.school => 200
  | Cell.hospital => 300
  | Cell.powerPlant => 250
  | Cell.road => 20
  | Cell.police => 400
  | Cell.fireStation => 350
  | Cell.airport => 1500
  | Cell.stadium => 800
  | Cell.mall => 600
  | Cell.university => 1000
  | _ => 0

/-- `is_valid_position(row, col)`. -/
def is_valid_position (row col : Int) : Bool :=
  decide (0 ≤ row) && decide (row < GRID_SIZE) && decide (0 ≤ col) && decide (col < GRID_SIZE)

/-- Row-major list of all 25 grid positions (the `for row ... for col ...` scan). -/
def allPositions : List GPos :=
  ([0, 1, 2, 3, 4] : List Int).flatMap (fun r => ([0, 1, 2, 3, 4] : List Int).map (fun c => (r, c)))

/-- Read `self.grid[row][col]`. -/
def gridGet (c : City) (p : GPos) : Cell := c.grid p

/-- Write `self.grid[row][col] = v`. -/
def gridSet (c : City) (p : GPos) (v : Cell) : GPos → Cell :=
  fun q => if q = p then v else c.grid q

/-- `is_cell_empty(row, col)`. -/
def is_cell_empty (c : City) (row col : Int) : Bool :=
  if ¬ is_valid_position row col then false
  else gridGet c (row, col) == Cell.empty

/-- The zone tags (`valid_zones` in `zone_land`). -/
def valid_zones : List Cell := [Cell.R, Cell.C, Cell.I, Cell.P]

/-- The building tags (`valid_buildings` in `build_structure`). -/
def valid_buildings : List Cell :=
  [Cell.school, Cell.hospital, Cell.powerPlant, Cell.road,
   Cell.police, Cell.fireStation, Cell.airport, Cell.stadium, Cell.mall, Cell.university]

/-- `count_cell_type(cell_type)`. -/
def count_cell_type (c : City) (t : Cell) : Int :=
  (allPositions.filter (fun p => gridGet c p == t)).length

/-- The record returned by `get_statistics()`. -/
structure Stats where
  residential : Int
  commercial : Int
  industrial : Int
  parks : Int
  schools : Int
  hospitals : Int
  power_plants : Int
  roads : Int
  police_stations : Int
  fire_stations : Int
  airports : Int
  stadiums : Int
  malls : Int
  universities : Int
  empty_cells : Int

/-- `get_statistics()`. -/
def get_statistics (c : City) : Stats where
  residential := count_cell_type c Cell.R
  commercial := count_cell_type c Cell.C
  industrial := count_cell_type c Cell.I
  parks := count_cell_type c Cell.P
  schools := count_cell_type c Cell.school
  hospitals := count_cell_type c Cell.hospital
  power_plants := count_cell_type c Cell.powerPlant
  roads := count_cell_type c Cell.road
  police_stations := count_cell_type c Cell.police
  fire_stations := count_cell_type c Cell.fireStation
  airports := count_cell_type c Cell.airport
  stadiums := count_cell_type c Cell.stadium
  malls := count_cell_type c Cell.mall
  universities := count_cell_type c Cell.university
  empty_cells := count_cell_type c Cell.empty

/-- `sum(stats.values())` of the statistics dict. -/
def Stats.total (s : Stats) : Int :=
  s.residential + s.commercial + s.industrial + s.parks + s.schools + s.hospitals +
  s.power_plants + s.roads + s.police_stations + s.fire_stations + s.airports +
  s.stadiums + s.malls + s.universities + s.empty_cells

/-- An achievement catalog entry: id, display fields, and the unlock predicate
(the `condition` lambda, which closes over the live `self` and the `stats`
snapshot taken at the start of `check_achievements`). -/
structure AchDef where
  id : String
  name : String
  description : String
  icon : String
  cond : City → Stats → Bool

/-- The ids receiving the one-time $5000 bonus in `unlock_achievement`. -/
def bonus_ids : List String := ["metropoliss", "paradise", "economic_boom"]

/-- The `all_achievements` catalog of `check_achievements`. -/
def all_achievements : List AchDef :=
  [⟨"first_citizens", "First Citizens", "Reach 100 population", "A",
      fun c _ => decide (c.population ≥ 100)⟩,
   ⟨"growing_city", "Growing City", "Reach 500 population", "A",
      fun c _ => decide (c.population ≥ 500)⟩,
   ⟨"metropoliss", "Metropolis", "Reach 1000 population", "A",
      fun c _ => decide (c.population ≥ 1000)⟩,
   ⟨"first_building", "First Building", "Build your first structure", "A",
      fun _ s => decide (s.total - s.empty_cells ≥ 1)⟩,
   ⟨"school_system", "School System", "Build 2 schools", "A",
      fun _ s => decide (s.schools ≥ 2)⟩,
   ⟨"healthcare", "Healthcare", "Build 2 hospitals", "A",
      fun _ s => decide (s.hospitals ≥ 2)⟩,
   ⟨"power_grid", "Power Grid", "Build 3 power plants", "A",
      fun _ s => decide (s.power_plants ≥ 3)⟩,
   ⟨"road_network", "Road Network", "Build 5 roads", "A",
      fun _ s => decide (s.roads ≥ 5)⟩,
   ⟨"residential_zone", "Residential Zone", "Build 3 residential zones", "A",
      fun _ s => decide (s.residential ≥ 3)⟩,
   ⟨"commercial_district", "Commercial District", "Build 3 commercial zones", "A",
      fun _ s => decide (s.commercial ≥ 3)⟩,
   ⟨"industrial_area", "Industrial Area", "Build 3 industrial zones", "A",
      fun _ s => decide (s.industrial ≥ 3)⟩,
   ⟨"green_city", "Green City", "Build 4 parks", "A",
      fun _ s => decide (s.parks ≥ 4)⟩,
   ⟨"happy_city", "Happy City", "Achieve 80 percent happiness", "A",
      fun c _ => decide (c.happiness ≥ 80)⟩,
   ⟨"paradise", "Paradise", "Achieve 95 percent happiness", "A",
      fun c _ => decide (c.happiness ≥ 95)⟩,
   ⟨"wealthy_city", "Wealthy City", "Accumulate 50000", "A",
      fun c _ => decide (c.money ≥ 50000)⟩,
   ⟨"economic_boom", "Economic Boom", "Have 100000", "A",
      fun c _ => decide (c.money ≥ 100000)⟩,
   ⟨"decade", "Decade", "Reach year 10", "A",
      fun c _ => decide (c.current_year ≥ 10)⟩,
   ⟨"century", "Century", "Reach year 100", "A",
      fun c _ => decide (c.current_year ≥ 100)⟩,
   ⟨"full_grid", "Full Grid", "Fill the entire 5x5 grid", "A",
      fun _ s => decide (s.empty_cells = 0)⟩,
   ⟨"balanced_city", "Balanced City", "Have at least 2 of each zone type", "A",
      fun _ s =>
        decide (s.residential ≥ 2) && decide (s.commercial ≥ 2) &&
        decide (s.industrial ≥ 2) && decide (s.parks ≥ 2)⟩]

/-- `unlock_achievement(achievement)`. -/
def unlock_achievement (c : City) (a : AchDef) : City :=
  let c := { c with
    achievements := c.achievements ++ [a.id]
    achievement_history := c.achievement_history ++
      [⟨a.id, a.name, a.description, a.icon, c.current_year⟩] }
  if a.id ∈ bonus_ids then { c with money := c.money + 5000 } else c

/-- One catalog entry of the `check_achievements` scan. -/
def ach_step (stats : Stats) (acc : City) (a : AchDef) : City :=
  if a.id ∉ acc.achievements ∧ a.cond acc stats then unlock_achievement acc a else acc

/-- `check_achievements()`: the stats snapshot is taken once, the catalog is
scanned in order, and each unlock mutates the live state before the next
condition is evaluated. -/
def check_achievements (c : City) : City :=
  let stats := get_statistics c
  all_achievements.foldl (ach_step stats) c

/-- `zone_land(row, col, zone_type)`; the returned Bool is the Python result. -/
def zone_land (c : City) (row col : Int) (zone_type : Cell) : Bool × City :=
  if ¬ is_valid_position row col then (false, c)
  else if ¬ is_cell_empty c row col then (false, c)
  else if zone_type ∉ valid_zones then (false, c)
  else
    let cost := building_costs zone_type
    if c.money < cost then (false, c)
    else
      let c := { c with money := c.money - cost, grid := gridSet c (row, col) zone_type }
      (true, check_achievements c)

/-- `build_structure(row, col, building_type)`. -/
def build_structure (c : City) (row col : Int) (building_type : Cell) : Bool × City :=
  if ¬ is_valid_position row col then (false, c)
  else if ¬ is_cell_empty c row col then (false, c)
  else if building_type ∉ valid_buildings then (false, c)
  else
    let cost := building_costs building_type
    if c.money < cost then (false, c)
    else
      let c := { c with money := c.money - cost, grid := gridSet c (row, col) building_type }
      (true, check_achievements c)

/-- `clear_cell(row, col)`: only the occupant is removed; the position-keyed
maps and the road/power networks are left untouched. -/
def clear_cell (c : City) (row col : Int) : Bool × City :=
  if ¬ is_valid_position row col then (false, c)
  else if is_cell_empty c row col then (false, c)
  else (true, { c with grid := gridSet c (row, col) Cell.empty })

/-- `zone_2x2_block(row, col, zone_type)`. -/
def zone_2x2_block (c : City) (row col : Int) (zone_type : Cell) : Bool × City :=
  if ¬ (is_valid_position row col && is_valid_position (row + 1) (col + 1)) then (false, c)
  else if ¬ ([(row, col), (row, col + 1), (row + 1, col), (row + 1, col + 1)].all
        (fun p => is_cell_empty c p.1 p.2)) then (false, c)
  else
    let cost := building_costs zone_type * 4
    if c.money < cost then (false, c)
    else
      let c := { c with money := c.money - cost }
      (true,
        [(row, col), (row, col + 1), (row + 1, col), (row + 1, col + 1)].foldl
          (fun acc p =>
            { acc with
              grid := gridSet acc p zone_type
              building_states := pset acc.building_states p BState.zonedEmpty }) c)

/-- The neighbor-presence based road variant chosen in `update_road_connections`
(the `connections` list and the `len(connections)` branches). -/
def road_connection_type (c : City) (row col : Int) : Cell :=
  let up : Bool := decide ((row - 1, col) ∈ c.road_network)
  let down : Bool := decide ((row + 1, col) ∈ c.road_network)
  let left : Bool := decide ((row, col - 1) ∈ c.road_network)
  let right : Bool := decide ((row, col + 1) ∈ c.road_network)
  let n := up.toNat + down.toNat + left.toNat + right.toNat
  if n = 0 then Cell.roadNone
  else if n = 1 then
    if up then Cell.roadV else if down then Cell.roadV
    else if left then Cell.roadH else Cell.roadH
  else if n = 2 then
    if up && down then Cell.roadV
    else if left && right then Cell.roadH
    else if up && left then Cell.roadCornerUL
    else if up && right then Cell.roadCornerUR
    else if down && left then Cell.roadCornerDL
    else Cell.roadCornerDR
  else if n = 3 then
    if !up then Cell.roadTUp else if !down then Cell.roadTDown
    else if !left then Cell.roadTLeft else Cell.roadTRight
  else Cell.roadCross

/-- The per-cell body of the loop in `update_road_connections`. -/
def road_retile_step (acc : City) (p : GPos) : City :=
  if gridGet acc p == Cell.road then
    { acc with grid := gridSet acc p (road_connection_type acc p.1 p.2) }
  else acc

/-- `update_road_connections()`: every cell of `road_network` is scanned, but a
cell is only retiled when its stored occupant string is still exactly `ROAD`. -/
def update_road_connections (c : City) : City :=
  c.road_network.foldl road_retile_step c

/-- `build_road_tile(row, col)`. -/
def build_road_tile (c : City) (row col : Int) : Bool × City :=
  if ¬ (is_valid_position row col && is_cell_empty c row col) then (false, c)
  else
    let cost := building_costs Cell.road
    if c.money < cost then (false, c)
    else
      let c := { c with
        money := c.money - cost
        grid := gridSet c (row, col) Cell.road
        road_network := sadd c.road_network (row, col) }
      (true, update_road_connections c)

/-- The four BFS directions of `update_power_distribution`. -/
def bfsDirs : List GPos := [(-1, 0), (1, 0), (0, -1), (0, 1)]

/-- The adjacent cells that the BFS of `update_power_distribution` enqueues from
`p`: in bounds, unvisited, and either a `power_network` member or a
residential/commercial/industrial zone cell. -/
def bfs_candidates (c : City) (visited : List GPos) (p : GPos) : List GPos :=
  (bfsDirs.map (fun d => (p.1 + d.1, p.2 + d.2))).filter
    (fun np => is_valid_position np.1 np.2 && decide (np ∉ visited) &&
      (decide (np ∈ c.power_network) ||
        (gridGet c np == Cell.R || gridGet c np == Cell.C || gridGet c np == Cell.I)))

/-- The `while queue:` loop of `update_power_distribution`, with fuel for
termination; `bfs_fuel` exceeds the number of iterations of any run. -/
def bfs_loop (c : City) : Nat → List GPos → List GPos → List GPos → List GPos
  | _, [], _, powered => powered
  | 0, _ :: _, _, powered => powered
  | fuel + 1, q :: rest, visited, powered =>
    if q ∈ visited then bfs_loop c fuel rest visited powered
    else
      let visited' := q :: visited
      let ns := bfs_candidates c visited' q
      bfs_loop c fuel (rest ++ ns) visited' (ns.foldl sadd powered)

/-- Fuel bound for `bfs_loop`; any run pops at most `1 + 4·25` queue entries. -/
def bfs_fuel : Nat := 1000

/-- The `powered_buildings` set computed by `update_power_distribution`: every
power-plant cell is recorded and then used as a BFS source. -/
def powered_buildings (c : City) : List GPos :=
  let plants := allPositions.filter (fun p => gridGet c p == Cell.powerPlant)
  let powered := plants.foldl sadd []
  plants.foldl (fun pw plant => bfs_loop c bfs_fuel [plant] [] pw) powered

/-- The per-cell building-state update at the end of `update_power_distribution`
(`powered` is the already computed powered set). -/
def upd_step (powered : List GPos) (acc : City) (p : GPos) : City :=
  if gridGet acc p == Cell.R || gridGet acc p == Cell.C || gridGet acc p == Cell.I then
    if p ∈ powered then
      if pget acc.building_states p == some BState.zonedEmpty then
        { acc with building_states := pset acc.building_states p BState.zonedDeveloping }
      else acc
    else { acc with building_states := pset acc.building_states p BState.zonedEmpty }
  else acc

/-- `update_power_distribution()`: compute the powered set, then update the
building state of every residential/commercial/industrial cell. -/
def update_power_distribution (c : City) : City :=
  allPositions.foldl (upd_step (powered_buildings c)) c

/-- `build_power_line(row, col)`. -/
def build_power_line (c : City) (row col : Int) : Bool × City :=
  if ¬ (is_valid_position row col && is_cell_empty c row col) then (false, c)
  else if c.money < 100 then (false, c)
  else
    let c := { c with
      money := c.money - 100
      power_network := sadd c.power_network (row, col)
      grid := gridSet c (row, col) Cell.powerLine }
    (true, update_power_distribution c)

/-- The Manhattan distance `abs(row - r) + abs(col - c)` of the source. -/
def manhattan (p q : GPos) : Int :=
  ((p.1 - q.1).natAbs : Int) + ((p.2 - q.2).natAbs : Int)

/-- `calculate_desirability(row, col)`. -/
def calculate_desirability (c : City) (row col : Int) : Int :=
  if ¬ (gridGet c (row, col) == Cell.R || gridGet c (row, col) == Cell.C ||
        gridGet c (row, col) == Cell.I) then 0
  else
    let prox := (allPositions.map (fun q =>
      let d := manhattan (row, col) q
      if d = 0 then 0
      else match gridGet c q with
        | Cell.P => max 0 (20 - d * 5)
        | Cell.school => max 0 (15 - d * 3)
        | Cell.hospital => max 0 (10 - d * 2)
        | Cell.powerPlant => max 0 (5 - d)
        | Cell.I => if gridGet c (row, col) == Cell.R then -(max 0 (10 - d * 2)) else 0
        | _ => 0)).sum
    let score := 50 + prox
      + (if (row, col) ∈ c.road_network then 10 else 0)
      + (if (row, col) ∈ c.power_network then 15 else 0)
      - (pget c.traffic_levels (row, col)).getD 0 * 2
    max 0 (min 100 score)

/-- The per-cell body of the loop in `update_building_states`. -/
def ubs_step (acc : City) (p : GPos) : City :=
  if gridGet acc p == Cell.R || gridGet acc p == Cell.C || gridGet acc p == Cell.I then
    let current_state := (pget acc.building_states p).getD BState.zonedEmpty
    let desirability := calculate_desirability acc p.1 p.2
    let acc := { acc with desirability_scores := pset acc.desirability_scores p desirability }
    let has_road := p ∈ acc.road_network
    let has_power := p ∈ acc.power_network
    if has_road ∧ has_power ∧ desirability ≥ 60 then
      if current_state = BState.zonedEmpty then
        { acc with building_states := pset acc.building_states p BState.zonedDeveloping }
      else if current_state = BState.zonedDeveloping then
        { acc with building_states := pset acc.building_states p BState.zonedOperating }
      else acc
    else if desirability < 30 then
      { acc with building_states := pset acc.building_states p BState.zonedAbandoned }
    else if ¬ has_road ∨ ¬ has_power then
      { acc with building_states := pset acc.building_states p BState.zonedEmpty }
    else acc
  else acc

/-- `update_building_states()`. -/
def update_building_states (c : City) : City :=
  allPositions.foldl ubs_step c

/-- One move of `add_traffic_to_path`: reduce the column distance first, then
the row distance. -/
def move_toward (current target : GPos) : GPos :=
  if current.2 < target.2 then (current.1, current.2 + 1)
  else if current.2 > target.2 then (current.1, current.2 - 1)
  else if current.1 < target.1 then (current.1 + 1, current.2)
  else if current.1 > target.1 then (current.1 - 1, current.2)
  else current

/-- The `while current != end:` loop of `add_traffic_to_path`, fueled;
`walk_fuel` exceeds the length of any path between grid cells. -/
def traffic_walk : Nat → City → GPos → GPos → City
  | 0, c, _, _ => c
  | fuel + 1, c, current, target =>
    if current = target then c
    else
      let next := move_toward current target
      let c :=
        if next ∈ c.road_network then
          let lvl := (pget c.traffic_levels next).getD 0 + 1
          { c with traffic_levels := pset c.traffic_levels next lvl }
        else c
      traffic_walk fuel c next target

/-- Fuel bound for `traffic_walk`. -/
def walk_fuel : Nat := 1000

/-- `add_traffic_to_path(start, end)`. -/
def add_traffic_to_path (c : City) (s e : GPos) : City :=
  traffic_walk walk_fuel c s e

/-- The nearest-workplace search inside `calculate_traffic` (strict `<`, so the
first minimal workplace in scan order wins). -/
def find_workplace (c : City) (operating : List GPos) (res : GPos) : Option GPos :=
  (operating.foldl
    (fun acc b =>
      if gridGet c b == Cell.C || gridGet c b == Cell.I then
        let d := manhattan res b
        match acc with
        | none => some (d, b)
        | some (m, w) => if d < m then some (d, b) else some (m, w)
      else acc)
    none).map Prod.snd

/-- The per-residence commute of `calculate_traffic`. -/
def commute_step (operating : List GPos) (acc : City) (r : GPos) : City :=
  if gridGet acc r == Cell.R then
    match find_workplace acc operating r with
    | some w => add_traffic_to_path acc r w
    | none => acc
  else acc

/-- `calculate_traffic()`. -/
def calculate_traffic (c : City) : City :=
  let c := { c with traffic_levels := [] }
  let operating := allPositions.filter (fun p =>
    pget c.building_states p == some BState.zonedOperating &&
    (gridGet c p == Cell.R || gridGet c p == Cell.C || gridGet c p == Cell.I))
  operating.foldl (commute_step operating) c

/-- `calculate_population()`. -/
def calculate_population (c : City) : Int :=
  let residential_zones := count_cell_type c Cell.R
  let base_capacity := residential_zones * 100
  let total_jobs := count_cell_type c Cell.C * 50 + count_cell_type c Cell.I * 75
  if total_jobs = 0 ∧ residential_zones = 0 then 0
  else if total_jobs = 0 then min (base_capacity / 4) base_capacity
  else min base_capacity total_jobs

/-- `calculate_happiness()`; `int((density - 0.8) * 20)` truncates a positive
float, which the floor models. -/
def calculate_happiness (c : City) : Int :=
  if c.population = 0 then 50
  else
    let h := 50 + count_cell_type c Cell.school * 10 + count_cell_type c Cell.hospital * 8
      + count_cell_type c Cell.P * 12 + count_cell_type c Cell.powerPlant * 5
      - count_cell_type c Cell.I * 3
    let residential_zones := count_cell_type c Cell.R
    let h :=
      if residential_zones > 0 then
        let density : ℚ := (c.population : ℚ) / ((residential_zones : ℚ) * 100)
        if density > 8/10 then h - Int.floor ((density - 8/10) * 20) else h
      else h
    max 0 (min 100 h)

/-- `calculate_income()` (stores the result in `self.income`). -/
def calculate_income (c : City) : City :=
  { c with income := (c.population : ℚ) * c.tax_rate * 10
      + (count_cell_type c Cell.C : ℚ) * 200 + (count_cell_type c Cell.I : ℚ) * 300 }

/-- `calculate_expenses()` (stores the result in `self.expenses`). -/
def calculate_expenses (c : City) : City :=
  { c with expenses := (allPositions.map (fun p =>
      if gridGet c p == Cell.empty then 0 else maintenance_costs (gridGet c p) / 12)).sum }

/-- `calculate_daily_economy()`. -/
def calculate_daily_economy (c : City) : City :=
  let rev : ℚ := (allPositions.map (fun p =>
    if pget c.building_states p == some BState.zonedOperating then
      if gridGet c p == Cell.R then (5 : ℚ)
      else if gridGet c p == Cell.C then 15
      else if gridGet c p == Cell.I then 20 else 0
    else 0)).sum
  let maint : ℚ := (allPositions.map (fun p =>
    if gridGet c p == Cell.empty then 0 else maintenance_costs (gridGet c p) / 365)).sum
  { c with
    daily_revenue := rev
    daily_maintenance := maint
    money := max 0 (c.money + (rev - maint)) }

/-- The `events` catalog of `trigger_random_event`. -/
def event_catalog : List EventData :=
  [⟨"Tourism Boom", "positive", "Tourists flock to your city", 15/100,
      some 2000, some 10, none, none, none⟩,
   ⟨"Tech Company", "positive", "A major tech company opens offices", 10/100,
      some 3000, none, some (12/10), none, none⟩,
   ⟨"Festival", "positive", "Annual city festival brings joy", 20/100,
      some 500, some 15, none, none, none⟩,
   ⟨"Green Initiative", "positive", "Environmental grants boost your city", 12/100,
      some 1500, some 8, none, none, none⟩,
   ⟨"Fire", "disaster", "A fire breaks out in the city", 8/100,
      some (-1000), some (-10), none, none, none⟩,
   ⟨"Economic Recession", "negative", "Economic downturn affects the city", 10/100,
      none, some (-5), some (7/10), none, none⟩,
   ⟨"Flood", "disaster", "Heavy flooding damages infrastructure", 6/100,
      some (-2000), some (-15), none, none, none⟩,
   ⟨"Power Outage", "negative", "City-wide power outage", 12/100,
      some (-500), some (-8), none, none, none⟩,
   ⟨"Traffic Jam", "negative", "Major traffic congestion", 15/100,
      some (-300), some (-5), none, none, none⟩]

/-- `apply_event(event)`. -/
def apply_event (c : City) (e : EventData) : City :=
  let c := match e.eff_money with
    | some m => { c with money := max 0 (c.money + m) }
    | none => c
  let c := match e.eff_happiness with
    | some h => { c with happiness := max 0 (min 100 (c.happiness + h)) }
    | none => c
  let c := match e.eff_mult with
    | some _ => { c with events :=
        c.events ++ [{ e with duration := some 12, remaining_duration := some 12 }] }
    | none => c
  { c with event_history := c.event_history ++ [⟨e.name, e.description, e.etype, c.current_year⟩] }

/-- The cumulative-probability selection of `trigger_random_event`. -/
def event_pick : List EventData → ℚ → ℚ → Option EventData
  | [], _, _ => none
  | e :: rest, roll, cum =>
    let cum := cum + e.probability
    if roll ≤ cum then some e else event_pick rest roll cum

/-- `trigger_random_event()`, with the draw `roll = random.random() * total_prob`
passed explicitly. -/
def trigger_random_event (c : City) (roll : ℚ) : City :=
  match event_pick event_catalog roll 0 with
  | some e => apply_event c e
  | none => c

/-- `process_events()`: decrement the remaining duration of every
income-multiplier event and drop the expired ones. -/
def process_events (c : City) : City :=
  c.events.foldl
    (fun acc e =>
      match e.eff_mult with
      | some _ =>
        let e := { e with remaining_duration := some (e.remaining_duration.getD 0 - 1) }
        if e.remaining_duration.getD 0 ≤ 0 then acc
        else { acc with events := acc.events ++ [e] }
      | none => { acc with events := acc.events ++ [e] })
    { c with events := [] }

/-- `get_active_events()`. -/
def get_active_events (c : City) : List EventData :=
  c.events.filter (fun e => decide (e.remaining_duration.getD 0 > 0))

/-- `trigger_disaster(disaster_type, row, col)`: note that the money and
happiness deductions are applied without any lower clamp. -/
def trigger_disaster (c : City) (disaster_type : String) (row col : Int) : Bool × City :=
  if ¬ is_valid_position row col then (false, c)
  else
    let c := { c with disasters := c.disasters ++ [⟨disaster_type, row, col, 1, 3, 3⟩] }
    if disaster_type == "fire" then
      (true, { c with money := c.money - 500, happiness := c.happiness - 5 })
    else if disaster_type == "tornado" then
      let c := { c with money := c.money - 1000, happiness := c.happiness - 10 }
      (true,
        (([-1, 0, 1] : List Int).flatMap
            (fun dr => ([-1, 0, 1] : List Int).map (fun dc => ((row + dr, col + dc) : GPos)))).foldl
          (fun acc q =>
            if is_valid_position q.1 q.2 && ¬ (gridGet acc q == Cell.empty) then
              { acc with
                grid := gridSet acc q Cell.empty
                building_states := premove acc.building_states q }
            else acc) c)
    else (true, c)

/-- `process_disasters()`: again, no clamp on the per-day deductions. -/
def process_disasters (c : City) : City :=
  c.disasters.foldl
    (fun acc d =>
      let d := { d with remaining_duration := d.remaining_duration - 1 }
      if d.remaining_duration ≤ 0 then acc
      else
        let acc := { acc with disasters := acc.disasters ++ [d] }
        if d.dtype == "fire" then
          { acc with money := acc.money - 100, happiness := acc.happiness - 2 }
        else if d.dtype == "tornado" then
          { acc with money := acc.money - 200, happiness := acc.happiness - 3 }
        else acc)
    { c with disasters := [] }

/-- One iteration of the 365-day loop in `advance_year`. -/
def run_sim_day (c : City) : City :=
  update_power_distribution (process_disasters (calculate_daily_economy
    (calculate_traffic (update_building_states c))))

/-- `advance_year()`: `doEvent` stands for `random.random() < 0.3` and `roll`
for the draw inside `trigger_random_event`. -/
def advance_year (c : City) (doEvent : Bool) (roll : ℚ) : City :=
  let c := { c with current_year := c.current_year + 1 }
  let c := (List.range 365).foldl (fun acc _ => run_sim_day acc) c
  let c := { c with population := calculate_population c }
  let c := { c with happiness := calculate_happiness c }
  let c := process_events c
  let c := calculate_income c
  let monthly_income := c.income
  let c := calculate_expenses c
  let monthly_expenses := c.expenses
  let mult := ((get_active_events c).filterMap (fun e => e.eff_mult)).foldl (· * ·) 1
  let c := { c with
    money := max 0 (c.money + (monthly_income * mult * 12 - monthly_expenses * 12)) }
  let c := if doEvent then trigger_random_event c roll else c
  check_achievements c

/-- Decimal digits of a natural number, most significant first (`fuel` only
bounds the recursion; 40 covers every representable value here). -/
def natDecimalAux : Nat → Nat → List Char
  | 0, _ => []
  | fuel + 1, n =>
    if n < 10 then [Char.ofNat (48 + n)]
    else natDecimalAux fuel (n / 10) ++ [Char.ofNat (48 + n % 10)]

/-- Decimal rendering of an integer, as Python's `f"{i}"`. -/
def intDecimal (i : Int) : String :=
  if i < 0 then String.mk (Char.ofNat 45 :: natDecimalAux 40 i.natAbs)
  else String.mk (natDecimalAux 40 i.natAbs)

/-- The `f"{row},{col}"` key encoding of `to_dict`. -/
def encode_pos (p : GPos) : String := intDecimal p.1 ++ "," ++ intDecimal p.2

/-- Split a string at commas, as Python's `key.split(',')`. -/
def splitCommaAux : List Char → List Char → List String
  | [], acc => [String.mk acc.reverse]
  | ch :: rest, acc =>
    if ch = ',' then String.mk acc.reverse :: splitCommaAux rest []
    else splitCommaAux rest (ch :: acc)

/-- Python's `s.split(',')`. -/
def splitComma (s : String) : List String := splitCommaAux s.data []

/-- Python's `int(s)` on decimal strings (garbage input maps to 0 here; Python
raises there, and no key written by `to_dict` is garbage). -/
def parseInt (s : String) : Int :=
  match s.data with
  | ch :: rest =>
    if ch = Char.ofNat 45 then
      -(rest.foldl (fun n d => n * 10 + ((d.toNat : Int) - 48)) 0)
    else s.data.foldl (fun n d => n * 10 + ((d.toNat : Int) - 48)) 0
  | [] => 0

/-- The `tuple(map(int, key.split(',')))` key decoding of `from_dict`. The
fallback branch is unreachable for keys written by `to_dict` (Python raises
there instead). -/
def decode_pos (s : String) : GPos :=
  match splitComma s with
  | [a, b] => (parseInt a, parseInt b)
  | _ => (0, 0)

/-- The plain key-value record produced by `to_dict`; a missing dict key is
`none`. -/
structure Snapshot where
  grid : Option (GPos → Cell) := none
  current_year : Option Int := none
  population : Option Int := none
  happiness : Option Int := none
  money : Option ℚ := none
  tax_rate : Option ℚ := none
  income : Option ℚ := none
  expenses : Option ℚ := none
  events : Option (List EventData) := none
  event_history : Option (List EventHist) := none
  achievements : Option (List String) := none
  achievement_history : Option (List AchHist) := none
  building_states : Option (List (String × BState)) := none
  desirability_scores : Option (List (String × Int)) := none
  power_network : Option (List GPos) := none
  road_network : Option (List GPos) := none
  traffic_levels : Option (List (String × Int)) := none
  disasters : Option (List DisasterData) := none
  daily_revenue : Option ℚ := none
  daily_maintenance : Option ℚ := none

/-- A record with every field missing. -/
def Snapshot.empty : Snapshot := {}

/-- `to_dict()`: position-keyed maps are emitted with `"row,col"` string keys,
the two networks as lists, everything else verbatim. -/
def to_dict (c : City) : Snapshot where
  grid := some c.grid
  current_year := some c.current_year
  population := some c.population
  happiness := some c.happiness
  money := some c.money
  tax_rate := some c.tax_rate
  income := some c.income
  expenses := some c.expenses
  events := some c.events
  event_history := some c.event_history
  achievements := some c.achievements
  achievement_history := some c.achievement_history
  building_states := some (c.building_states.map (fun e => (encode_pos e.1, e.2)))
  desirability_scores := some (c.desirability_scores.map (fun e => (encode_pos e.1, e.2)))
  power_network := some c.power_network
  road_network := some c.road_network
  traffic_levels := some (c.traffic_levels.map (fun e => (encode_pos e.1, e.2)))
  disasters := some c.disasters
  daily_revenue := some c.daily_revenue
  daily_maintenance := some c.daily_maintenance

/-- `from_dict(data)`: every missing field falls back to the fresh-construction
value of `__init__`, and string keys are parsed back into positions. -/
def from_dict (d : Snapshot) : City where
  grid := d.grid.getD (fun _ => Cell.empty)
  current_year := d.current_year.getD 1
  population := d.population.getD 0
  happiness := d.happiness.getD 50
  money := d.money.getD 10000
  tax_rate := d.tax_rate.getD (5 / 100)
  income := d.income.getD 0
  expenses := d.expenses.getD 0
  events := d.events.getD []
  event_history := d.event_history.getD []
  achievements := d.achievements.getD []
  achievement_history := d.achievement_history.getD []
  building_states := (d.building_states.getD []).map (fun e => (decode_pos e.1, e.2))
  desirability_scores := (d.desirability_scores.getD []).map (fun e => (decode_pos e.1, e.2))
  power_network := d.power_network.getD []
  road_network := d.road_network.getD []
  traffic_levels := (d.traffic_levels.getD []).map (fun e => (decode_pos e.1, e.2))
  disasters := d.disasters.getD []
  daily_revenue := d.daily_revenue.getD 0
  daily_maintenance := d.daily_maintenance.getD 0

/-! ## Basic lemmas about the container helpers -/

theorem pget_pset_self {V : Type} (m : List (GPos × V)) (p : GPos) (v : V) :
    pget (pset m p v) p = some v := by
  induction m with
  | nil => simp [pget, pset]
  | cons e rest ih =>
    obtain ⟨q, w⟩ := e
    by_cases h : q = p <;> simp [pget, pset, h, ih]

theorem pget_pset_ne {V : Type} (m : List (GPos × V)) (p q : GPos) (v : V) (h : q ≠ p) :
    pget (pset m p v) q = pget m q := by
  induction m with
  | nil => simp [pget, pset, Ne.symm h]
  | cons e rest ih =>
    obtain ⟨r, w⟩ := e
    by_cases hr : r = p
    · subst hr
      simp [pget, pset, Ne.symm h]
    · by_cases hq : r = q <;> simp [pget, pset, hr, hq, h, ih]

theorem mem_sadd (s : List GPos) (p x : GPos) : x ∈ sadd s p ↔ x ∈ s ∨ x = p := by
  unfold sadd
  by_cases h : p ∈ s
  · simp only [if_pos h]
    constructor
    · exact Or.inl
    · rintro (hx | rfl)
      · exact hx
      · exact h
  · simp [if_neg h]

theorem mem_foldl_sadd (l : List GPos) (s : List GPos) (x : GPos) :
    x ∈ l.foldl sadd s ↔ x ∈ s ∨ x ∈ l := by
  induction l generalizing s with
  | nil => simp
  | cons a rest ih =>
    simp only [List.foldl_cons, ih, mem_sadd, List.mem_cons]
    tauto

theorem mem_allPositions (p : GPos) :
    p ∈ allPositions ↔ is_valid_position p.1 p.2 = true := by
  constructor
  · intro h
    fin_cases h <;> decide
  · obtain ⟨r, c⟩ := p
    intro h
    simp only [is_valid_position, GRID_SIZE, Bool.and_eq_true, decide_eq_true_eq] at h
    obtain ⟨⟨⟨h1, h2⟩, h3⟩, h4⟩ := h
    interval_cases r <;> interval_cases c <;> decide

theorem allPositions_nodup : allPositions.Nodup := by decide

/-! ## C5: road autotiling.

The claim says that adding a road recomputes the variant of every cell in
`RoadNetwork` from its neighbor bitmask.  In the source, the loop in
`update_road_connections` only retiles cells whose stored occupant is still
exactly `ROAD`; every previously retiled cell keeps its stale variant.  After
building roads at (0,0), (0,1), (1,1) in that order, the cell (0,1) has
neighbors down and left (bitmask mapping `Road_Corner_DL`) but keeps the tag
`Road_H` it got when it had a single left neighbor, and (0,0) keeps
`Road_None`. -/

/-- The three-road L used to exhibit the stale autotiling. -/
def roadL : City :=
  (build_road_tile (build_road_tile (build_road_tile City.init 0 0).2 0 1).2 1 1).2

unseal Rat.add Rat.sub Rat.mul Rat.inv in
/-- C5: the code violates the claim.  All three cells are in `road_network`,
the neighbor-bitmask mapping (computed by `road_connection_type`, exactly the
`connections` logic of the source) assigns `Road_H` to (0,0) and
`Road_Corner_DL` to (0,1), yet the stored occupant tags after the last
`build_road_tile` are the stale `Road_None` and `Road_H`. -/
theorem C5_autotiling_stale :
    ((0, 0) ∈ roadL.road_network ∧ (0, 1) ∈ roadL.road_network ∧
      (1, 1) ∈ roadL.road_network) ∧
    road_connection_type roadL 0 0 = Cell.roadH ∧
    road_connection_type roadL 0 1 = Cell.roadCornerDL ∧
    gridGet roadL (0, 0) = Cell.roadNone ∧
    gridGet roadL (0, 1) = Cell.roadH := by
  decide

/-! ## C7: `clear_cell`. -/

/-- The 2×2 residential block (which initializes `building_states` entries),
used to exhibit that `clear_cell` leaves those entries behind. -/
def blockCity : City := (zone_2x2_block City.init 0 0 Cell.R).2

unseal Rat.add Rat.sub Rat.mul Rat.inv in
/-- C7 counterexample: clearing (0,0) of `blockCity` succeeds, yet the
`BuildingState` entry for (0,0) is still present afterwards (and so is the
occupant removal the only mutation), contradicting the claim that `clear`
removes the associated BuildingState entry. -/
theorem C7_clear_keeps_entry :
    (clear_cell blockCity 0 0).1 = true ∧
    pget ((clear_cell blockCity 0 0).2).building_states (0, 0) = some BState.zonedEmpty ∧
    pget ((clear_cell blockCity 0 0).2).building_states (0, 0) ≠ none := by
  decide

/-- C7 (amended): `clear` succeeds exactly on a valid, non-empty cell; on
success the only mutation is the occupant removal — in particular the
BuildingState map, the desirability map and the money are all left unchanged
(no refund, but also no cleanup); on an invalid or empty cell it fails with no
mutation. -/
theorem C7_clear_cell_spec (c : City) (row col : Int) :
    (¬ (is_valid_position row col = true ∧ gridGet c (row, col) ≠ Cell.empty) →
      clear_cell c row col = (false, c)) ∧
    ((is_valid_position row col = true ∧ gridGet c (row, col) ≠ Cell.empty) →
      clear_cell c row col = (true, { c with grid := gridSet c (row, col) Cell.empty }) ∧
      ((clear_cell c row col).2).building_states = c.building_states ∧
      ((clear_cell c row col).2).desirability_scores = c.desirability_scores ∧
      ((clear_cell c row col).2).money = c.money) := by
  constructor
  · intro h
    unfold clear_cell is_cell_empty
    by_cases hv : is_valid_position row col = true
    · have hg : gridGet c (row, col) = Cell.empty := by
        by_contra hne
        exact h ⟨hv, hne⟩
      simp [hv, hg]
    · simp [hv]
  · rintro ⟨hv, hg⟩
    have hcc : clear_cell c row col =
        (true, { c with grid := gridSet c (row, col) Cell.empty }) := by
      unfold clear_cell is_cell_empty
      simp [hv, hg]
    refine ⟨hcc, ?_, ?_, ?_⟩ <;> rw [hcc]

unseal Rat.add Rat.sub Rat.mul Rat.inv in
/-- Witness for `C7_clear_cell_spec`: both branches instantiated on concrete
cities (a successful clear of the zoned cell (0,0) of `blockCity`, and a
failing clear of the empty cell (4,4) of the fresh city). -/
theorem C7_clear_cell_spec_witness :
    (is_valid_position 0 0 = true ∧ gridGet blockCity (0, 0) ≠ Cell.empty) ∧
    clear_cell blockCity 0 0 =
      (true, { blockCity with grid := gridSet blockCity (0, 0) Cell.empty }) ∧
    ¬ (is_valid_position 9 9 = true ∧ gridGet City.init (9, 9) ≠ Cell.empty) ∧
    clear_cell City.init 9 9 = (false, City.init) := by
  refine ⟨by decide, ((C7_clear_cell_spec blockCity 0 0).2 (by decide)).1, by decide, ?_⟩
  exact (C7_clear_cell_spec City.init 9 9).1 (by decide)

/-! ## C1: lifecycle progression under favorable conditions. -/

/-- The effective building state of a cell: a missing entry reads as
`Zoned_Empty` (the convention of `update_building_states`, `get_cell_display`
and the spec's data model). -/
def bstate_at (c : City) (p : GPos) : BState :=
  (pget c.building_states p).getD BState.zonedEmpty

/-- One favorable-conditions step of the lifecycle state machine. -/
def step_state : BState → BState
  | BState.zonedEmpty => BState.zonedDeveloping
  | BState.zonedDeveloping => BState.zonedOperating
  | s => s

theorem calculate_desirability_congr (c₁ c₂ : City) (row col : Int)
    (hg : c₁.grid = c₂.grid) (hr : c₁.road_network = c₂.road_network)
    (hp : c₁.power_network = c₂.power_network) (ht : c₁.traffic_levels = c₂.traffic_levels) :
    calculate_desirability c₁ row col = calculate_desirability c₂ row col := by
  unfold calculate_desirability gridGet
  rw [hg, hr, hp, ht]

theorem ubs_step_stable (acc : City) (q : GPos) :
    (ubs_step acc q).grid = acc.grid ∧
    (ubs_step acc q).road_network = acc.road_network ∧
    (ubs_step acc q).power_network = acc.power_network ∧
    (ubs_step acc q).traffic_levels = acc.traffic_levels := by
  refine ⟨?_, ?_, ?_, ?_⟩
  all_goals simp only [ubs_step]
  all_goals repeat' split
  all_goals rfl

theorem ubs_step_bs_ne (acc : City) (q p : GPos) (h : p ≠ q) :
    pget (ubs_step acc q).building_states p = pget acc.building_states p := by
  simp only [ubs_step]
  repeat' split
  all_goals first
    | rfl
    | exact pget_pset_ne _ q p _ h

theorem foldl_ubs_stable (L : List GPos) (acc : City) :
    (L.foldl ubs_step acc).grid = acc.grid ∧
    (L.foldl ubs_step acc).road_network = acc.road_network ∧
    (L.foldl ubs_step acc).power_network = acc.power_network ∧
    (L.foldl ubs_step acc).traffic_levels = acc.traffic_levels := by
  induction L generalizing acc with
  | nil => exact ⟨rfl, rfl, rfl, rfl⟩
  | cons q rest ih =>
    have hs := ubs_step_stable acc q
    have hr := ih (ubs_step acc q)
    exact ⟨hr.1.trans hs.1, hr.2.1.trans hs.2.1, hr.2.2.1.trans hs.2.2.1,
      hr.2.2.2.trans hs.2.2.2⟩

theorem foldl_ubs_bs_ne (L : List GPos) (acc : City) (p : GPos) (h : p ∉ L) :
    pget ((L.foldl ubs_step acc).building_states) p = pget acc.building_states p := by
  induction L generalizing acc with
  | nil => rfl
  | cons q rest ih =>
    have h1 : p ≠ q := fun hpq => h (hpq ▸ List.mem_cons_self q rest)
    have h2 : p ∉ rest := fun hm => h (List.mem_cons_of_mem q hm)
    rw [List.foldl_cons, ih _ h2, ubs_step_bs_ne acc q p h1]

theorem ubs_step_at_favorable (acc : City) (p : GPos)
    (hz : gridGet acc p = Cell.R ∨ gridGet acc p = Cell.C ∨ gridGet acc p = Cell.I)
    (hr : p ∈ acc.road_network) (hw : p ∈ acc.power_network)
    (hd : 60 ≤ calculate_desirability acc p.1 p.2) :
    bstate_at (ubs_step acc p) p = step_state (bstate_at acc p) := by
  have hc : (gridGet acc p == Cell.R || gridGet acc p == Cell.C ||
      gridGet acc p == Cell.I) = true := by
    rcases hz with h | h | h <;> simp [h]
  unfold ubs_step
  simp only [hc, if_true]
  rw [if_pos ⟨hr, hw, hd⟩]
  unfold bstate_at
  cases hstate : pget acc.building_states p with
  | none => simp [hstate, step_state, pget_pset_self]
  | some s =>
    cases s <;> simp [hstate, step_state, pget_pset_self]

/-- Pointwise effect of a full `update_building_states` on a favorable cell. -/
theorem update_building_states_at (c : City) (p : GPos)
    (hval : is_valid_position p.1 p.2 = true)
    (hz : gridGet c p = Cell.R ∨ gridGet c p = Cell.C ∨ gridGet c p = Cell.I)
    (hr : p ∈ c.road_network) (hw : p ∈ c.power_network)
    (hd : 60 ≤ calculate_desirability c p.1 p.2) :
    bstate_at (update_building_states c) p = step_state (bstate_at c p) := by
  have hp : p ∈ allPositions := (mem_allPositions p).2 hval
  obtain ⟨L1, L2, hsplit⟩ := List.append_of_mem hp
  have hnd : (L1 ++ p :: L2).Nodup := hsplit ▸ allPositions_nodup
  rw [List.nodup_append] at hnd
  obtain ⟨h1, h2, hdisj⟩ := hnd
  have hnotL1 : p ∉ L1 := fun hm => (hdisj hm) (List.mem_cons_self p L2)
  have hnotL2 : p ∉ L2 := (List.nodup_cons.mp h2).1
  unfold update_building_states
  rw [hsplit, List.foldl_append, List.foldl_cons]
  have hstable := foldl_ubs_stable L1 c
  have hbsA : pget (L1.foldl ubs_step c).building_states p = pget c.building_states p :=
    foldl_ubs_bs_ne L1 c p hnotL1
  have hfinal : pget ((L2.foldl ubs_step (ubs_step (L1.foldl ubs_step c) p)).building_states) p
      = pget (ubs_step (L1.foldl ubs_step c) p).building_states p :=
    foldl_ubs_bs_ne L2 _ p hnotL2
  have hzA : gridGet (L1.foldl ubs_step c) p = gridGet c p := by
    unfold gridGet; rw [hstable.1]
  have hdA : calculate_desirability (L1.foldl ubs_step c) p.1 p.2
      = calculate_desirability c p.1 p.2 :=
    calculate_desirability_congr _ c p.1 p.2 hstable.1 hstable.2.1 hstable.2.2.1 hstable.2.2.2
  have hstep := ubs_step_at_favorable (L1.foldl ubs_step c) p (by rw [hzA]; exact hz)
    (by rw [hstable.2.1]; exact hr) (by rw [hstable.2.2.1]; exact hw)
    (by rw [hdA]; exact hd)
  unfold bstate_at at hstep ⊢
  rw [hfinal]
  rw [hstep, hbsA]

/-- `update_building_states` never changes the grid, the networks or the
traffic map, so a cell's favorable conditions persist across daily recomputes. -/
theorem update_building_states_stable (c : City) :
    (update_building_states c).grid = c.grid ∧
    (update_building_states c).road_network = c.road_network ∧
    (update_building_states c).power_network = c.power_network ∧
    (update_building_states c).traffic_levels = c.traffic_levels :=
  foldl_ubs_stable allPositions c

/-- C1: for every zoned (R/C/I) cell with both road and power access and
desirability at least 60, one `update_building_states` advances its
BuildingState by exactly one step (Zoned-Empty to Zoned-Developing,
Zoned-Developing to Zoned-Operating, Zoned-Operating staying put), so from
Zoned-Empty the cell reaches Zoned-Operating in at most 2 daily recomputes and
never regresses while the conditions hold (the conditions are untouched by the
recompute itself, so they do hold again on the second day). -/
theorem C1_lifecycle_progression (c : City) (p : GPos)
    (hval : is_valid_position p.1 p.2 = true)
    (hz : gridGet c p = Cell.R ∨ gridGet c p = Cell.C ∨ gridGet c p = Cell.I)
    (hr : p ∈ c.road_network) (hw : p ∈ c.power_network)
    (hd : 60 ≤ calculate_desirability c p.1 p.2) :
    bstate_at (update_building_states c) p = step_state (bstate_at c p) ∧
    (bstate_at c p = BState.zonedEmpty →
      bstate_at (update_building_states (update_building_states c)) p =
        BState.zonedOperating) ∧
    (bstate_at c p = BState.zonedOperating →
      bstate_at (update_building_states c) p = BState.zonedOperating) := by
  have h1 := update_building_states_at c p hval hz hr hw hd
  have hst := update_building_states_stable c
  have hz2 : gridGet (update_building_states c) p = Cell.R ∨
      gridGet (update_building_states c) p = Cell.C ∨
      gridGet (update_building_states c) p = Cell.I := by
    unfold gridGet
    rw [hst.1]
    exact hz
  have hr2 : p ∈ (update_building_states c).road_network := by rw [hst.2.1]; exact hr
  have hw2 : p ∈ (update_building_states c).power_network := by rw [hst.2.2.1]; exact hw
  have hd2 : 60 ≤ calculate_desirability (update_building_states c) p.1 p.2 := by
    rw [calculate_desirability_congr _ c _ _ hst.1 hst.2.1 hst.2.2.1 hst.2.2.2]
    exact hd
  have h2 := update_building_states_at (update_building_states c) p hval hz2 hr2 hw2 hd2
  refine ⟨h1, ?_, ?_⟩
  · intro he
    rw [h2, h1, he]
    rfl
  · intro ho
    rw [h1, ho]
    rfl

/-- A city whose cell (0,0) is residential with road and power access and
desirability 75: the favorable-conditions scenario of C1. -/
def favCity : City :=
  { City.init with
    grid := fun p => if p = ((0 : Int), (0 : Int)) then Cell.R else Cell.empty
    road_network := [(0, 0)]
    power_network := [(0, 0)] }

unseal Rat.add Rat.sub Rat.mul Rat.inv in
/-- Witness for `C1_lifecycle_progression`: on `favCity` every hypothesis holds
at (0,0) and the cell walks Zoned-Empty, Zoned-Developing, Zoned-Operating
across two daily recomputes. -/
theorem C1_lifecycle_progression_witness :
    (is_valid_position 0 0 = true ∧ gridGet favCity (0, 0) = Cell.R ∧
      ((0 : Int), (0 : Int)) ∈ favCity.road_network ∧
      ((0 : Int), (0 : Int)) ∈ favCity.power_network ∧
      60 ≤ calculate_desirability favCity 0 0 ∧
      bstate_at favCity (0, 0) = BState.zonedEmpty) ∧
    bstate_at (update_building_states favCity) (0, 0) = BState.zonedDeveloping ∧
    bstate_at (update_building_states (update_building_states favCity)) (0, 0) =
      BState.zonedOperating := by
  have h := C1_lifecycle_progression favCity ((0 : Int), (0 : Int)) (by decide)
    (Or.inl (by decide)) (by decide) (by decide) (by decide)
  refine ⟨by decide, ?_, h.2.1 (by decide)⟩
  rw [h.1]
  decide

/-! ## C9: the desirability formula.

The spec-side formula below (`desirability_spec`) is written from the claim's
words: per-amenity sums of distance-decayed contributions, an industrial
penalty only for residential cells, flat road/power bonuses, minus twice the
traffic level, clamped to [0,100].  The claim is settled by proving it equal
to `calculate_desirability` (the embedding of the source loop). -/

/-- Park contribution of `q` per the spec: `max(0, 20−5d)` at distance `d>0`. -/
def park_term (c : City) (row col : Int) (q : GPos) : Int :=
  if gridGet c q = Cell.P ∧ 0 < manhattan (row, col) q then
    max 0 (20 - 5 * manhattan (row, col) q) else 0

/-- School contribution per the spec: `max(0, 15−3d)`. -/
def school_term (c : City) (row col : Int) (q : GPos) : Int :=
  if gridGet c q = Cell.school ∧ 0 < manhattan (row, col) q then
    max 0 (15 - 3 * manhattan (row, col) q) else 0

/-- Hospital contribution per the spec: `max(0, 10−2d)`. -/
def hospital_term (c : City) (row col : Int) (q : GPos) : Int :=
  if gridGet c q = Cell.hospital ∧ 0 < manhattan (row, col) q then
    max 0 (10 - 2 * manhattan (row, col) q) else 0

/-- Power-plant contribution per the spec: `max(0, 5−d)`. -/
def plant_term (c : City) (row col : Int) (q : GPos) : Int :=
  if gridGet c q = Cell.powerPlant ∧ 0 < manhattan (row, col) q then
    max 0 (5 - manhattan (row, col) q) else 0

/-- Industrial penalty per the spec: `max(0, 10−2d)` per industrial cell, only
when the scored cell is residential. -/
def industrial_term (c : City) (row col : Int) (q : GPos) : Int :=
  if gridGet c q = Cell.I ∧ 0 < manhattan (row, col) q ∧ gridGet c (row, col) = Cell.R then
    max 0 (10 - 2 * manhattan (row, col) q) else 0

/-- The desirability formula exactly as the claim states it. -/
def desirability_spec (c : City) (row col : Int) : Int :=
  max 0 (min 100 (
    50 + (allPositions.map (park_term c row col)).sum
       + (allPositions.map (school_term c row col)).sum
       + (allPositions.map (hospital_term c row col)).sum
       + (allPositions.map (plant_term c row col)).sum
       - (allPositions.map (industrial_term c row col)).sum
       + (if (row, col) ∈ c.road_network then 10 else 0)
       + (if (row, col) ∈ c.power_network then 15 else 0)
       - 2 * (pget c.traffic_levels (row, col)).getD 0))

theorem manhattan_nonneg (p q : GPos) : 0 ≤ manhattan p q := by
  unfold manhattan
  omega

theorem sum_map_decomp {α : Type} (L : List α) (f p s h pl ind : α → Int)
    (hpt : ∀ a ∈ L, f a = p a + s a + h a + pl a - ind a) :
    (L.map f).sum = (L.map p).sum + (L.map s).sum + (L.map h).sum +
      (L.map pl).sum - (L.map ind).sum := by
  induction L with
  | nil => simp
  | cons a rest ih =>
    have ha := hpt a (List.mem_cons_self a rest)
    have hr := ih (fun b hb => hpt b (List.mem_cons_of_mem a hb))
    simp only [List.map_cons, List.sum_cons, ha, hr]
    omega

/-- C9: for every residential/commercial/industrial cell, the code's
desirability computation equals the claim's formula. -/
theorem C9_desirability_formula (c : City) (row col : Int)
    (hz : gridGet c (row, col) = Cell.R ∨ gridGet c (row, col) = Cell.C ∨
      gridGet c (row, col) = Cell.I) :
    calculate_desirability c row col = desirability_spec c row col := by
  have hc : (gridGet c (row, col) == Cell.R || gridGet c (row, col) == Cell.C ||
      gridGet c (row, col) == Cell.I) = true := by
    rcases hz with h | h | h <;> simp [h]
  have hsum : (allPositions.map (fun q =>
      let d := manhattan (row, col) q
      if d = 0 then 0
      else match gridGet c q with
        | Cell.P => max 0 (20 - d * 5)
        | Cell.school => max 0 (15 - d * 3)
        | Cell.hospital => max 0 (10 - d * 2)
        | Cell.powerPlant => max 0 (5 - d)
        | Cell.I => if gridGet c (row, col) == Cell.R then -(max 0 (10 - d * 2)) else 0
        | _ => 0)).sum =
      (allPositions.map (park_term c row col)).sum +
      (allPositions.map (school_term c row col)).sum +
      (allPositions.map (hospital_term c row col)).sum +
      (allPositions.map (plant_term c row col)).sum -
      (allPositions.map (industrial_term c row col)).sum := by
    apply sum_map_decomp
    intro q _
    have hMn := manhattan_nonneg (row, col) q
    by_cases hd : manhattan (row, col) q = 0
    · simp [park_term, school_term, hospital_term, plant_term, industrial_term, hd]
    · have hd' : 0 < manhattan (row, col) q := lt_of_le_of_ne hMn (Ne.symm hd)
      cases hcell : gridGet c q <;>
        by_cases hres : gridGet c (row, col) = Cell.R <;>
        simp only [park_term, school_term, hospital_term, plant_term, industrial_term,
          hcell, hd, hd', hres, if_false, if_true, and_true, and_false, true_and,
          false_and, if_neg, reduceCtorEq, beq_iff_eq, beq_self_eq_true] <;>
        first
          | omega
          | (ring_nf)
          | (ring_nf; omega)
          | simp
  unfold calculate_desirability desirability_spec
  simp only [hc, Bool.not_true, if_true, if_false]
  rw [hsum]
  refine congrArg (fun z => max 0 (min 100 z)) ?_
  ring

unseal Rat.add Rat.sub Rat.mul Rat.inv in
/-- Witness for `C9_desirability_formula`: on `favCity` the residential cell
(0,0) has desirability 75 under both the code and the spec formula. -/
theorem C9_desirability_formula_witness :
    gridGet favCity (0, 0) = Cell.R ∧
    calculate_desirability favCity 0 0 = desirability_spec favCity 0 0 ∧
    calculate_desirability favCity 0 0 = 75 := by
  exact ⟨by decide, C9_desirability_formula favCity 0 0 (Or.inl (by decide)), by decide⟩

/-! ## C10: traffic recompute invariant. -/

/-- `traffic_walk` only ever touches `traffic_levels`. -/
theorem traffic_walk_shape (fuel : Nat) (c : City) (cur tgt : GPos) :
    ∃ tl, traffic_walk fuel c cur tgt = { c with traffic_levels := tl } := by
  induction fuel generalizing c cur with
  | zero => exact ⟨c.traffic_levels, rfl⟩
  | succ f ih =>
    simp only [traffic_walk]
    by_cases he : cur = tgt
    · rw [if_pos he]
      exact ⟨c.traffic_levels, rfl⟩
    · rw [if_neg he]
      by_cases hr : move_toward cur tgt ∈ c.road_network
      · rw [if_pos hr]
        exact ih _ (move_toward cur tgt)
      · rw [if_neg hr]
        exact ih c (move_toward cur tgt)

/-- Every entry written by `traffic_walk` sits on a road cell and is positive,
provided the entries already present do. -/
theorem traffic_walk_inv (fuel : Nat) (cur tgt : GPos) (c : City) (R : List GPos)
    (hroad : c.road_network = R)
    (h : ∀ p v, pget c.traffic_levels p = some v → p ∈ R ∧ 0 < v) :
    ∀ p v, pget (traffic_walk fuel c cur tgt).traffic_levels p = some v →
      p ∈ R ∧ 0 < v := by
  induction fuel generalizing c cur with
  | zero =>
    intro p v hp
    exact h p v hp
  | succ f ih =>
    intro p v hp
    simp only [traffic_walk] at hp
    by_cases he : cur = tgt
    · rw [if_pos he] at hp
      exact h p v hp
    · rw [if_neg he] at hp
      by_cases hr : move_toward cur tgt ∈ c.road_network
      · rw [if_pos hr] at hp
        refine ih (move_toward cur tgt) ({ c with traffic_levels := pset c.traffic_levels (move_toward cur tgt) ((pget c.traffic_levels (move_toward cur tgt)).getD 0 + 1) }) hroad ?_ p v hp
        intro q w hq
        by_cases hqn : q = move_toward cur tgt
        · subst hqn
          rw [pget_pset_self] at hq
          have hw := Option.some.inj hq
          cases hold : pget c.traffic_levels (move_toward cur tgt) with
          | none =>
            rw [hold] at hw
            simp only [Option.getD_none] at hw
            exact ⟨hroad ▸ hr, by omega⟩
          | some u =>
            rw [hold] at hw
            simp only [Option.getD_some] at hw
            have hu := h _ u hold
            exact ⟨hroad ▸ hr, by omega⟩
        · rw [pget_pset_ne _ _ _ _ hqn] at hq
          exact h q w hq
      · rw [if_neg hr] at hp
        exact ih (move_toward cur tgt) c hroad h p v hp

/-- `commute_step` only ever touches `traffic_levels`. -/
theorem commute_step_shape (op : List GPos) (acc : City) (r : GPos) :
    ∃ tl, commute_step op acc r = { acc with traffic_levels := tl } := by
  unfold commute_step
  by_cases hg : (gridGet acc r == Cell.R) = true
  · rw [if_pos hg]
    cases hw : find_workplace acc op r with
    | none => exact ⟨acc.traffic_levels, rfl⟩
    | some w => exact traffic_walk_shape walk_fuel acc r w
  · rw [if_neg hg]
    exact ⟨acc.traffic_levels, rfl⟩

theorem commute_step_inv (op : List GPos) (acc : City) (r : GPos) (R : List GPos)
    (hroad : acc.road_network = R)
    (h : ∀ p v, pget acc.traffic_levels p = some v → p ∈ R ∧ 0 < v) :
    ∀ p v, pget (commute_step op acc r).traffic_levels p = some v → p ∈ R ∧ 0 < v := by
  intro p v hp
  unfold commute_step at hp
  by_cases hg : (gridGet acc r == Cell.R) = true
  · rw [if_pos hg] at hp
    cases hw : find_workplace acc op r with
    | none =>
      rw [hw] at hp
      exact h p v hp
    | some w =>
      rw [hw] at hp
      exact traffic_walk_inv walk_fuel r w acc R hroad h p v hp
  · rw [if_neg hg] at hp
    exact h p v hp

theorem foldl_commute_inv (L : List GPos) (op : List GPos) (R : List GPos) (acc : City)
    (hroad : acc.road_network = R)
    (h : ∀ p v, pget acc.traffic_levels p = some v → p ∈ R ∧ 0 < v) :
    (∀ p v, pget ((L.foldl (commute_step op) acc)).traffic_levels p = some v →
      p ∈ R ∧ 0 < v) ∧
    (L.foldl (commute_step op) acc).road_network = R := by
  induction L generalizing acc with
  | nil => exact ⟨h, hroad⟩
  | cons r rest ih =>
    rw [List.foldl_cons]
    obtain ⟨tl, htl⟩ := commute_step_shape op acc r
    have hroad' : (commute_step op acc r).road_network = R := by rw [htl]; exact hroad
    exact ih (commute_step op acc r) hroad' (commute_step_inv op acc r R hroad h)

/-- C10: after a traffic recompute, every recorded traffic entry lies on a cell
of `RoadNetwork` and is strictly positive; consequently any position outside
`RoadNetwork` reads back traffic level 0. -/
theorem C10_traffic_on_roads (c : City) (p : GPos) :
    (∀ v, pget (calculate_traffic c).traffic_levels p = some v →
      p ∈ c.road_network ∧ 0 < v) ∧
    (p ∉ c.road_network → (pget (calculate_traffic c).traffic_levels p).getD 0 = 0) := by
  have hbase : ∀ q w, pget ({ c with traffic_levels := [] } : City).traffic_levels q = some w →
      q ∈ c.road_network ∧ 0 < w := by
    intro q w hq
    simp [pget] at hq
  have h := foldl_commute_inv
    (allPositions.filter (fun q =>
      pget ({ c with traffic_levels := [] } : City).building_states q ==
          some BState.zonedOperating &&
        (gridGet { c with traffic_levels := [] } q == Cell.R ||
          gridGet { c with traffic_levels := [] } q == Cell.C ||
          gridGet { c with traffic_levels := [] } q == Cell.I)))
    (allPositions.filter (fun q =>
      pget ({ c with traffic_levels := [] } : City).building_states q ==
          some BState.zonedOperating &&
        (gridGet { c with traffic_levels := [] } q == Cell.R ||
          gridGet { c with traffic_levels := [] } q == Cell.C ||
          gridGet { c with traffic_levels := [] } q == Cell.I)))
    c.road_network { c with traffic_levels := [] } rfl hbase
  constructor
  · intro v hv
    exact h.1 p v hv
  · intro hout
    cases hv : pget (calculate_traffic c).traffic_levels p with
    | none => rfl
    | some v => exact absurd (h.1 p v hv).1 hout

/-- A city with an operating residential cell at (2,0), an operating
commercial cell at (2,4), and road cells between them. -/
def trafCity : City :=
  { City.init with
    grid := fun p =>
      if p = ((2 : Int), (0 : Int)) then Cell.R
      else if p = ((2 : Int), (4 : Int)) then Cell.C
      else Cell.empty
    building_states :=
      [(((2 : Int), (0 : Int)), BState.zonedOperating),
       (((2 : Int), (4 : Int)), BState.zonedOperating)]
    road_network := [(2, 1), (2, 2), (2, 3)] }

unseal Rat.add Rat.sub Rat.mul Rat.inv in
/-- Witness for `C10_traffic_on_roads`: in a city with an operating residential
cell at (2,0), an operating commercial cell at (2,4) and roads between them,
the recompute records traffic 1 on road cell (2,1), and the off-road position
(0,0) reads 0. -/
theorem C10_traffic_on_roads_witness :
    pget (calculate_traffic trafCity).traffic_levels (2, 1) = some 1 ∧
    ((2 : Int), (1 : Int)) ∈ trafCity.road_network ∧ (0 : Int) < 1 ∧
    ((0 : Int), (0 : Int)) ∉ trafCity.road_network ∧
    (pget (calculate_traffic trafCity).traffic_levels (0, 0)).getD 0 = 0 := by
  refine ⟨by decide, ?_, ?_, ?_, ?_⟩
  · exact ((C10_traffic_on_roads trafCity (2, 1)).1 1 (by decide)).1
  · exact ((C10_traffic_on_roads trafCity (2, 1)).1 1 (by decide)).2
  · decide
  · exact (C10_traffic_on_roads trafCity (0, 0)).2 (by decide)

/-! ## C2: power distribution.

Spec side: the claim describes the powered set as the union, over all
power-plant cells taken as BFS sources, of the cells reachable by
4-directional traversal through power-line (`power_network`) or R/C/I zone
cells.  `PowerReach` is that reachability relation written from the claim's
words; the main lemma proves the embedded BFS computes exactly its union. -/

/-- 4-directional adjacency, in the direction order of the source. -/
def adjacent (p q : GPos) : Prop :=
  q ∈ bfsDirs.map (fun d => (p.1 + d.1, p.2 + d.2))

/-- Spec-side traversability: a power-line cell (a `power_network` member, the
set the source consults) or a residential/commercial/industrial zone cell. -/
def traversable (c : City) (q : GPos) : Prop :=
  q ∈ c.power_network ∨ gridGet c q = Cell.R ∨ gridGet c q = Cell.C ∨ gridGet c q = Cell.I

/-- Spec-side reachability from a BFS source: steps move to adjacent, in-bound,
traversable cells. -/
inductive PowerReach (c : City) (src : GPos) : GPos → Prop where
  | refl : PowerReach c src src
  | step {p q : GPos} : PowerReach c src p → adjacent p q →
      is_valid_position q.1 q.2 = true → traversable c q → PowerReach c src q

/-- A BFS source: an in-bounds power-plant cell. -/
def isPlant (c : City) (p : GPos) : Prop :=
  is_valid_position p.1 p.2 = true ∧ gridGet c p = Cell.powerPlant

/-- The claim's powered set: union of the reachable sets over all sources. -/
def powered_spec (c : City) (x : GPos) : Prop :=
  ∃ src, isPlant c src ∧ PowerReach c src x

theorem mem_bfs_candidates (c : City) (visited : List GPos) (q x : GPos) :
    x ∈ bfs_candidates c visited q ↔
      adjacent q x ∧ is_valid_position x.1 x.2 = true ∧ x ∉ visited ∧ traversable c x := by
  unfold bfs_candidates adjacent traversable
  simp only [List.mem_filter, Bool.and_eq_true, decide_eq_true_eq, Bool.or_eq_true,
    beq_iff_eq]
  tauto

theorem bfs_candidates_length (c : City) (visited : List GPos) (q : GPos) :
    (bfs_candidates c visited q).length ≤ 4 := by
  unfold bfs_candidates
  calc ((bfsDirs.map (fun d => (q.1 + d.1, q.2 + d.2))).filter _).length
      ≤ (bfsDirs.map (fun d => (q.1 + d.1, q.2 + d.2))).length := List.length_filter_le _ _
    _ = 4 := by rfl

theorem bfs_loop_mono (c : City) (fuel : Nat) (queue visited powered : List GPos) (x : GPos)
    (hx : x ∈ powered) : x ∈ bfs_loop c fuel queue visited powered := by
  induction fuel generalizing queue visited powered with
  | zero => cases queue <;> exact hx
  | succ f ih =>
    cases queue with
    | nil => exact hx
    | cons q rest =>
      simp only [bfs_loop]
      by_cases hv : q ∈ visited
      · rw [if_pos hv]
        exact ih rest visited powered hx
      · rw [if_neg hv]
        exact ih _ _ _ ((mem_foldl_sadd _ _ _).2 (Or.inl hx))

theorem bfs_loop_sound (c : City) (src : GPos) (fuel : Nat)
    (queue visited powered : List GPos)
    (hq : ∀ y ∈ queue, PowerReach c src y) :
    ∀ x ∈ bfs_loop c fuel queue visited powered, x ∈ powered ∨ PowerReach c src x := by
  induction fuel generalizing queue visited powered with
  | zero =>
    intro x hx
    cases queue <;> exact Or.inl hx
  | succ f ih =>
    intro x hx
    cases queue with
    | nil => exact Or.inl hx
    | cons q rest =>
      simp only [bfs_loop] at hx
      by_cases hv : q ∈ visited
      · rw [if_pos hv] at hx
        exact ih rest visited powered (fun y hy => hq y (List.mem_cons_of_mem q hy)) x hx
      · rw [if_neg hv] at hx
        have hqreach : PowerReach c src q := hq q (List.mem_cons_self q rest)
        have hns : ∀ y ∈ bfs_candidates c (q :: visited) q, PowerReach c src y := by
          intro y hy
          obtain ⟨hadj, hval, _, htrav⟩ := (mem_bfs_candidates c _ q y).1 hy
          exact PowerReach.step hqreach hadj hval htrav
        have hq' : ∀ y ∈ rest ++ bfs_candidates c (q :: visited) q, PowerReach c src y := by
          intro y hy
          rcases List.mem_append.1 hy with h | h
          · exact hq y (List.mem_cons_of_mem q h)
          · exact hns y h
        rcases ih _ _ _ hq' x hx with hx' | hx'
        · rcases (mem_foldl_sadd _ _ _).1 hx' with h | h
          · exact Or.inl h
          · exact Or.inr (hns x h)
        · exact Or.inr hx'

/-- The number of valid grid positions not yet visited. -/
def missingCount (visited : List GPos) : Nat :=
  (allPositions.filter (fun v => decide (v ∉ visited))).length

theorem length_filter_le_of_imp {α : Type} (L : List α) (p q : α → Bool)
    (h : ∀ a ∈ L, p a = true → q a = true) :
    (L.filter p).length ≤ (L.filter q).length := by
  induction L with
  | nil => simp
  | cons b rest ih =>
    have hr := ih (fun a ha => h a (List.mem_cons_of_mem b ha))
    by_cases hp : p b = true
    · rw [List.filter_cons, List.filter_cons, if_pos hp,
        if_pos (h b (List.mem_cons_self b rest) hp)]
      simpa using hr
    · rw [List.filter_cons, if_neg hp]
      rw [List.filter_cons]
      by_cases hqb : q b = true
      · rw [if_pos hqb]
        simp only [List.length_cons]
        omega
      · rw [if_neg hqb]
        exact hr

theorem length_filter_lt {α : Type} (L : List α) (p q : α → Bool)
    (himp : ∀ a ∈ L, p a = true → q a = true) (a0 : α) (ha0 : a0 ∈ L)
    (h1 : p a0 = false) (h2 : q a0 = true) :
    (L.filter p).length < (L.filter q).length := by
  induction L with
  | nil => cases ha0
  | cons b rest ih =>
    rcases List.mem_cons.1 ha0 with hb | hb
    · subst hb
      rw [List.filter_cons, List.filter_cons, if_neg (by simp [h1]), if_pos h2]
      simp only [List.length_cons]
      exact Nat.lt_succ_of_le (length_filter_le_of_imp rest p q
        (fun a ha => himp a (List.mem_cons_of_mem a0 ha)))
    · have hr := ih (fun a ha => himp a (List.mem_cons_of_mem b ha)) hb
      rw [List.filter_cons, List.filter_cons]
      by_cases hp : p b = true
      · rw [if_pos hp, if_pos (himp b (List.mem_cons_self b rest) hp)]
        simpa using hr
      · rw [if_neg hp]
        by_cases hq : q b = true
        · rw [if_pos hq]
          simp only [List.length_cons]
          omega
        · rw [if_neg hq]
          exact hr

theorem missingCount_lt (visited : List GPos) (q : GPos)
    (hq : q ∈ allPositions) (hnv : q ∉ visited) :
    missingCount (q :: visited) < missingCount visited := by
  unfold missingCount
  refine length_filter_lt allPositions _ _ ?_ q hq ?_ ?_
  · intro a _ ha
    simp only [decide_eq_true_eq] at ha ⊢
    intro hmem
    exact ha (List.mem_cons_of_mem q hmem)
  · simp
  · simp [hnv]

theorem bfs_loop_complete (c : City) (src : GPos) (fuel : Nat)
    (queue visited powered : List GPos)
    (hvalid : ∀ y ∈ queue, is_valid_position y.1 y.2 = true)
    (hsrc : src ∈ visited ∨ src ∈ queue)
    (hclosed : ∀ y ∈ visited, ∀ z, adjacent y z → is_valid_position z.1 z.2 = true →
      traversable c z → z ∈ visited ∨ z ∈ queue)
    (hpow : ∀ y, y ∈ visited ∨ y ∈ queue → y ∈ powered)
    (hfuel : queue.length + 5 * missingCount visited ≤ fuel) :
    ∀ x, PowerReach c src x → x ∈ bfs_loop c fuel queue visited powered := by
  induction fuel generalizing queue visited powered with
  | zero =>
    cases queue with
    | nil =>
      intro x hx
      have hsrc' : src ∈ visited := by
        rcases hsrc with h | h
        · exact h
        · cases h
      have hsub : ∀ y, PowerReach c src y → y ∈ visited := by
        intro y hy
        induction hy with
        | refl => exact hsrc'
        | step hreach hadj hval htrav ihy =>
          rcases hclosed _ ihy _ hadj hval htrav with h | h
          · exact h
          · cases h
      exact hpow x (Or.inl (hsub x hx))
    | cons q rest =>
      exfalso
      simp only [List.length_cons] at hfuel
      omega
  | succ f ih =>
    cases queue with
    | nil =>
      intro x hx
      have hsrc' : src ∈ visited := by
        rcases hsrc with h | h
        · exact h
        · cases h
      have hsub : ∀ y, PowerReach c src y → y ∈ visited := by
        intro y hy
        induction hy with
        | refl => exact hsrc'
        | step hreach hadj hval htrav ihy =>
          rcases hclosed _ ihy _ hadj hval htrav with h | h
          · exact h
          · cases h
      exact hpow x (Or.inl (hsub x hx))
    | cons q rest =>
      intro x hx
      simp only [bfs_loop]
      by_cases hv : q ∈ visited
      · rw [if_pos hv]
        refine ih rest visited powered
          (fun y hy => hvalid y (List.mem_cons_of_mem q hy)) ?_ ?_ ?_ ?_ x hx
        · rcases hsrc with h | h
          · exact Or.inl h
          · rcases List.mem_cons.1 h with h' | h'
            · exact Or.inl (h' ▸ hv)
            · exact Or.inr h'
        · intro y hy z hadj hval htrav
          rcases hclosed y hy z hadj hval htrav with h | h
          · exact Or.inl h
          · rcases List.mem_cons.1 h with h' | h'
            · exact Or.inl (h' ▸ hv)
            · exact Or.inr h'
        · intro y hy
          rcases hy with h | h
          · exact hpow y (Or.inl h)
          · exact hpow y (Or.inr (List.mem_cons_of_mem q h))
        · simp only [List.length_cons] at hfuel
          omega
      · rw [if_neg hv]
        have hqval : is_valid_position q.1 q.2 = true := hvalid q (List.mem_cons_self q rest)
        refine ih (rest ++ bfs_candidates c (q :: visited) q) (q :: visited)
          ((bfs_candidates c (q :: visited) q).foldl sadd powered) ?_ ?_ ?_ ?_ ?_ x hx
        · intro y hy
          rcases List.mem_append.1 hy with h | h
          · exact hvalid y (List.mem_cons_of_mem q h)
          · exact ((mem_bfs_candidates c _ q y).1 h).2.1
        · rcases hsrc with h | h
          · exact Or.inl (List.mem_cons_of_mem q h)
          · rcases List.mem_cons.1 h with h' | h'
            · exact Or.inl (h' ▸ List.mem_cons_self q visited)
            · exact Or.inr (List.mem_append.2 (Or.inl h'))
        · intro y hy z hadj hval htrav
          rcases List.mem_cons.1 hy with hyq | hyv
          · subst hyq
            by_cases hz : z ∈ y :: visited
            · exact Or.inl hz
            · refine Or.inr (List.mem_append.2 (Or.inr ?_))
              exact (mem_bfs_candidates c _ y z).2 ⟨hadj, hval, hz, htrav⟩
          · rcases hclosed y hyv z hadj hval htrav with h | h
            · exact Or.inl (List.mem_cons_of_mem q h)
            · rcases List.mem_cons.1 h with h' | h'
              · exact Or.inl (h' ▸ List.mem_cons_self q visited)
              · exact Or.inr (List.mem_append.2 (Or.inl h'))
        · intro y hy
          have hyp : y ∈ powered ∨ y ∈ bfs_candidates c (q :: visited) q := by
            rcases hy with h | h
            · rcases List.mem_cons.1 h with h' | h'
              · exact Or.inl (hpow y (Or.inr (h' ▸ List.mem_cons_self q rest)))
              · exact Or.inl (hpow y (Or.inl h'))
            · rcases List.mem_append.1 h with h' | h'
              · exact Or.inl (hpow y (Or.inr (List.mem_cons_of_mem q h')))
              · exact Or.inr h'
          exact (mem_foldl_sadd _ _ _).2 hyp
        · have hm := missingCount_lt visited q ((mem_allPositions q).2 hqval) hv
          have hcand := bfs_candidates_length c (q :: visited) q
          simp only [List.length_append, List.length_cons] at hfuel ⊢
          omega

theorem mem_plants (c : City) (x : GPos) :
    x ∈ allPositions.filter (fun p => gridGet c p == Cell.powerPlant) ↔ isPlant c x := by
  simp only [List.mem_filter, beq_iff_eq, mem_allPositions, isPlant]

theorem fold_bfs_mono (c : City) (plants : List GPos) (pw : List GPos) (x : GPos)
    (hx : x ∈ pw) :
    x ∈ plants.foldl (fun a pl => bfs_loop c bfs_fuel [pl] [] a) pw := by
  induction plants generalizing pw with
  | nil => exact hx
  | cons pl rest ih =>
    rw [List.foldl_cons]
    exact ih _ (bfs_loop_mono c bfs_fuel [pl] [] pw x hx)

theorem fold_bfs_sound (c : City) (plants : List GPos) (pw : List GPos) :
    ∀ x ∈ plants.foldl (fun a pl => bfs_loop c bfs_fuel [pl] [] a) pw,
      x ∈ pw ∨ ∃ pl ∈ plants, PowerReach c pl x := by
  induction plants generalizing pw with
  | nil => exact fun x hx => Or.inl hx
  | cons pl rest ih =>
    intro x hx
    rw [List.foldl_cons] at hx
    rcases ih _ x hx with h | ⟨pl', hpl', hr⟩
    · have hq1 : ∀ y ∈ ([pl] : List GPos), PowerReach c pl y := by
        intro y hy
        rcases List.mem_cons.1 hy with h'' | h''
        · exact h'' ▸ PowerReach.refl
        · cases h''
      rcases bfs_loop_sound c pl bfs_fuel [pl] [] pw hq1 x h with h' | h'
      · exact Or.inl h'
      · exact Or.inr ⟨pl, List.mem_cons_self pl rest, h'⟩
    · exact Or.inr ⟨pl', List.mem_cons_of_mem pl hpl', hr⟩

theorem fold_bfs_complete (c : City) (plants : List GPos) (pw : List GPos)
    (hin : ∀ pl ∈ plants, pl ∈ pw)
    (hval : ∀ pl ∈ plants, is_valid_position pl.1 pl.2 = true) :
    ∀ pl ∈ plants, ∀ x, PowerReach c pl x →
      x ∈ plants.foldl (fun a pl' => bfs_loop c bfs_fuel [pl'] [] a) pw := by
  induction plants generalizing pw with
  | nil =>
    intro pl h
    cases h
  | cons pl0 rest ih =>
    intro pl hpl x hx
    rcases List.mem_cons.1 hpl with he | hm
    · subst he
      have hbase : x ∈ bfs_loop c bfs_fuel [pl] [] pw := by
        refine bfs_loop_complete c pl bfs_fuel [pl] [] pw ?_
          (Or.inr (List.mem_cons_self pl [])) ?_ ?_ ?_ x hx
        · intro y hy
          rcases List.mem_cons.1 hy with h | h
          · exact h ▸ hval pl (List.mem_cons_self pl rest)
          · cases h
        · intro y hy
          cases hy
        · intro y hy
          rcases hy with h | h
          · cases h
          · rcases List.mem_cons.1 h with h' | h'
            · exact h' ▸ hin pl (List.mem_cons_self pl rest)
            · cases h'
        · have hm25 : missingCount [] = 25 := by decide
          rw [hm25]
          simp only [List.length_cons, List.length_nil]
          decide
      rw [List.foldl_cons]
      exact fold_bfs_mono c rest _ x hbase
    · rw [List.foldl_cons]
      refine ih _ ?_ ?_ pl hm x hx
      · intro pl' hpl'
        exact bfs_loop_mono c bfs_fuel [pl0] [] pw pl'
          (hin pl' (List.mem_cons_of_mem pl0 hpl'))
      · intro pl' hpl'
        exact hval pl' (List.mem_cons_of_mem pl0 hpl')

/-- The computed powered set is exactly the claim's union of per-source
reachable sets. -/
theorem powered_buildings_iff (c : City) (x : GPos) :
    x ∈ powered_buildings c ↔ powered_spec c x := by
  simp only [powered_buildings]
  constructor
  · intro hx
    rcases fold_bfs_sound c _ _ x hx with h | ⟨pl, hpl, hr⟩
    · rcases (mem_foldl_sadd _ _ _).1 h with h' | h'
      · cases h'
      · exact ⟨x, (mem_plants c x).1 h', PowerReach.refl⟩
    · exact ⟨pl, (mem_plants c pl).1 hpl, hr⟩
  · rintro ⟨src, hsrc, hr⟩
    refine fold_bfs_complete c _ _ ?_ ?_ src ((mem_plants c src).2 hsrc) x hr
    · intro pl hpl
      exact (mem_foldl_sadd _ _ _).2 (Or.inr hpl)
    · intro pl hpl
      exact ((mem_plants c pl).1 hpl).1

theorem upd_step_stable (pw : List GPos) (acc : City) (q : GPos) :
    (upd_step pw acc q).grid = acc.grid ∧
    (upd_step pw acc q).road_network = acc.road_network ∧
    (upd_step pw acc q).power_network = acc.power_network ∧
    (upd_step pw acc q).traffic_levels = acc.traffic_levels := by
  refine ⟨?_, ?_, ?_, ?_⟩
  all_goals simp only [upd_step]
  all_goals repeat' split
  all_goals rfl

theorem upd_step_bs_ne (pw : List GPos) (acc : City) (q p : GPos) (h : p ≠ q) :
    pget (upd_step pw acc q).building_states p = pget acc.building_states p := by
  simp only [upd_step]
  repeat' split
  all_goals first
    | rfl
    | exact pget_pset_ne _ q p _ h

theorem foldl_upd_stable (pw : List GPos) (L : List GPos) (acc : City) :
    (L.foldl (upd_step pw) acc).grid = acc.grid ∧
    (L.foldl (upd_step pw) acc).building_states = (L.foldl (upd_step pw) acc).building_states := by
  induction L generalizing acc with
  | nil => exact ⟨rfl, rfl⟩
  | cons q rest ih =>
    rw [List.foldl_cons]
    exact ⟨(ih (upd_step pw acc q)).1.trans (upd_step_stable pw acc q).1, rfl⟩

theorem foldl_upd_bs_ne (pw : List GPos) (L : List GPos) (acc : City) (p : GPos)
    (h : p ∉ L) :
    pget ((L.foldl (upd_step pw) acc).building_states) p = pget acc.building_states p := by
  induction L generalizing acc with
  | nil => rfl
  | cons q rest ih =>
    have h1 : p ≠ q := fun hpq => h (hpq ▸ List.mem_cons_self q rest)
    have h2 : p ∉ rest := fun hm => h (List.mem_cons_of_mem q hm)
    rw [List.foldl_cons, ih _ h2, upd_step_bs_ne pw acc q p h1]

theorem upd_step_at (pw : List GPos) (acc : City) (p : GPos)
    (hz : gridGet acc p = Cell.R ∨ gridGet acc p = Cell.C ∨ gridGet acc p = Cell.I) :
    pget (upd_step pw acc p).building_states p =
      if p ∈ pw then
        (if pget acc.building_states p = some BState.zonedEmpty then
          some BState.zonedDeveloping
        else pget acc.building_states p)
      else some BState.zonedEmpty := by
  have hc : (gridGet acc p == Cell.R || gridGet acc p == Cell.C ||
      gridGet acc p == Cell.I) = true := by
    rcases hz with h | h | h <;> simp [h]
  simp only [upd_step, hc, if_true]
  by_cases hp : p ∈ pw
  · rw [if_pos hp, if_pos hp]
    by_cases hbs : pget acc.building_states p = some BState.zonedEmpty
    · rw [if_pos hbs, if_pos (by simp [hbs])]
      exact pget_pset_self _ _ _
    · rw [if_neg hbs, if_neg (by simp [hbs])]
  · rw [if_neg hp, if_neg hp]
    exact pget_pset_self _ _ _

/-- Pointwise effect of `update_power_distribution` on an R/C/I cell. -/
theorem update_power_distribution_at (c : City) (p : GPos)
    (hval : is_valid_position p.1 p.2 = true)
    (hz : gridGet c p = Cell.R ∨ gridGet c p = Cell.C ∨ gridGet c p = Cell.I) :
    pget (update_power_distribution c).building_states p =
      if p ∈ powered_buildings c then
        (if pget c.building_states p = some BState.zonedEmpty then
          some BState.zonedDeveloping
        else pget c.building_states p)
      else some BState.zonedEmpty := by
  have hp : p ∈ allPositions := (mem_allPositions p).2 hval
  obtain ⟨L1, L2, hsplit⟩ := List.append_of_mem hp
  have hnd : (L1 ++ p :: L2).Nodup := hsplit ▸ allPositions_nodup
  rw [List.nodup_append] at hnd
  obtain ⟨h1, h2, hdisj⟩ := hnd
  have hnotL1 : p ∉ L1 := fun hm => (hdisj hm) (List.mem_cons_self p L2)
  have hnotL2 : p ∉ L2 := (List.nodup_cons.mp h2).1
  unfold update_power_distribution
  rw [hsplit, List.foldl_append, List.foldl_cons]
  have hgA : (L1.foldl (upd_step (powered_buildings c)) c).grid = c.grid :=
    (foldl_upd_stable (powered_buildings c) L1 c).1
  have hbsA : pget (L1.foldl (upd_step (powered_buildings c)) c).building_states p =
      pget c.building_states p := foldl_upd_bs_ne _ L1 c p hnotL1
  have hzA : gridGet (L1.foldl (upd_step (powered_buildings c)) c) p = Cell.R ∨
      gridGet (L1.foldl (upd_step (powered_buildings c)) c) p = Cell.C ∨
      gridGet (L1.foldl (upd_step (powered_buildings c)) c) p = Cell.I := by
    unfold gridGet
    rw [hgA]
    exact hz
  rw [foldl_upd_bs_ne _ L2 _ p hnotL2, upd_step_at _ _ p hzA, hbsA]

/-- The city built by `build_structure(power plant at (0,0))` then
`zone_land(R at (0,1))`: the residential cell is powered but `zone_land` never
created a `building_states` entry for it. -/
def noEntryCity : City :=
  (zone_land (build_structure City.init 0 0 Cell.powerPlant).2 0 1 Cell.R).2

set_option maxRecDepth 20000 in
unseal Rat.add Rat.sub Rat.mul Rat.inv in
/-- C2 counterexample: the cell (0,1) of `noEntryCity` is residential, is in
the computed powered set, and is in state Zoned-Empty (its `building_states`
entry is absent, which the data model reads as Zoned-Empty), yet
`update_power_distribution` leaves it in Zoned-Empty instead of advancing it
to Zoned-Developing: the source only advances cells whose dict entry is
literally `ZONED_EMPTY` (`.get` with no default), so absent entries are
skipped. -/
theorem C2_missing_entry_not_advanced :
    gridGet noEntryCity (0, 1) = Cell.R ∧
    (0, 1) ∈ powered_buildings noEntryCity ∧
    pget noEntryCity.building_states (0, 1) = none ∧
    bstate_at noEntryCity (0, 1) = BState.zonedEmpty ∧
    bstate_at (update_power_distribution noEntryCity) (0, 1) = BState.zonedEmpty ∧
    bstate_at (update_power_distribution noEntryCity) (0, 1) ≠ BState.zonedDeveloping := by
  decide

/-- C2 (amended): the power recompute computes the powered set as the union,
over every power-plant cell taken as a BFS source, of cells reachable by
4-directional traversal through power-line (`power_network`) or R/C/I zone
cells; afterwards, for every R/C/I cell, a powered cell whose recorded
BuildingState entry is Zoned-Empty is advanced to Zoned-Developing (a powered
cell with no recorded entry — implicitly Zoned-Empty — is left unchanged, as
is any other powered cell), and an unpowered cell is set to Zoned-Empty
regardless of its prior state. -/
theorem C2_power_recompute_spec (c : City) (p : GPos) :
    (p ∈ powered_buildings c ↔ powered_spec c p) ∧
    (is_valid_position p.1 p.2 = true →
      (gridGet c p = Cell.R ∨ gridGet c p = Cell.C ∨ gridGet c p = Cell.I) →
      ((p ∈ powered_buildings c ∧ pget c.building_states p = some BState.zonedEmpty →
        pget (update_power_distribution c).building_states p =
          some BState.zonedDeveloping) ∧
      (p ∈ powered_buildings c ∧ pget c.building_states p ≠ some BState.zonedEmpty →
        pget (update_power_distribution c).building_states p =
          pget c.building_states p) ∧
      (p ∉ powered_buildings c →
        pget (update_power_distribution c).building_states p =
          some BState.zonedEmpty))) := by
  refine ⟨powered_buildings_iff c p, ?_⟩
  intro hval hz
  have h := update_power_distribution_at c p hval hz
  refine ⟨?_, ?_, ?_⟩
  · rintro ⟨hpow, hbs⟩
    rw [h, if_pos hpow, if_pos hbs]
  · rintro ⟨hpow, hbs⟩
    rw [h, if_pos hpow, if_neg hbs]
  · intro hpow
    rw [h, if_neg hpow]

/-- A powered residential cell with a recorded Zoned-Empty entry, for the
witness of `C2_power_recompute_spec`. -/
def entryCity : City :=
  { City.init with
    grid := fun p =>
      if p = ((0 : Int), (0 : Int)) then Cell.powerPlant
      else if p = ((0 : Int), (1 : Int)) then Cell.R
      else Cell.empty
    building_states := [(((0 : Int), (1 : Int)), BState.zonedEmpty)] }

set_option maxRecDepth 20000 in
unseal Rat.add Rat.sub Rat.mul Rat.inv in
/-- Witness for `C2_power_recompute_spec`: on `entryCity` the hypotheses hold
at the residential cell (0,1) of the powered branch, which is advanced to
Zoned-Developing; and the iff is exercised at the plant (0,0). -/
theorem C2_power_recompute_spec_witness :
    (is_valid_position 0 1 = true ∧ gridGet entryCity (0, 1) = Cell.R ∧
      (0, 1) ∈ powered_buildings entryCity ∧
      pget entryCity.building_states (0, 1) = some BState.zonedEmpty) ∧
    pget (update_power_distribution entryCity).building_states (0, 1) =
      some BState.zonedDeveloping ∧
    powered_spec entryCity ((0 : Int), (0 : Int)) := by
  refine ⟨by decide, ?_, ?_⟩
  · exact ((C2_power_recompute_spec entryCity ((0 : Int), (1 : Int))).2 (by decide)
      (Or.inl (by decide))).1 ⟨by decide, by decide⟩
  · exact (C2_power_recompute_spec entryCity ((0 : Int), (0 : Int))).1.1 (by decide)

/-! ## C8: the straight-line power scenario. -/

/-- Power plant at (0,0), power lines at (0,1), (0,2), (0,3), residential cell
at (0,4): the plant is connected to the residential cell 4 cells away by a
straight line of power-line cells. -/
def lineCity : City :=
  (zone_land (build_power_line (build_power_line (build_power_line
    (build_structure City.init 0 0 Cell.powerPlant).2 0 1).2 0 2).2 0 3).2 0 4 Cell.R).2

/-- `lineCity` after clearing the power-line cell (0,2) on the only path. -/
def lineCityCleared : City := (clear_cell lineCity 0 2).2

set_option maxRecDepth 20000 in
unseal Rat.add Rat.sub Rat.mul Rat.inv in
/-- C8 counterexample: after removing the power-line cell (0,2) with `clear`,
the next power recompute still powers the residential cell (0,4) — the claim
says it must be unpowered.  The cause is visible in the last two conjuncts:
the cleared cell is empty on the grid but still a member of `power_network`,
and BFS traversability tests `power_network` membership. -/
theorem C8_clear_does_not_depower :
    (clear_cell lineCity 0 2).1 = true ∧
    gridGet lineCityCleared (0, 2) = Cell.empty ∧
    (0, 2) ∈ lineCityCleared.power_network ∧
    (0, 4) ∈ powered_buildings lineCityCleared := by
  decide

set_option maxRecDepth 20000 in
unseal Rat.add Rat.sub Rat.mul Rat.inv in
/-- C8 (amended): a power plant connected by a straight line of power-line
cells to a residential cell 4 cells away powers that residential cell; but
after removing one power-line cell on that only path via `clear`, the next
power recompute still powers the residential cell, because `clear` does not
remove the cell from PowerNetwork and traversal tests PowerNetwork
membership. -/
theorem C8_power_line_scenario :
    gridGet lineCity (0, 0) = Cell.powerPlant ∧
    gridGet lineCity (0, 1) = Cell.powerLine ∧
    gridGet lineCity (0, 2) = Cell.powerLine ∧
    gridGet lineCity (0, 3) = Cell.powerLine ∧
    gridGet lineCity (0, 4) = Cell.R ∧
    (0, 4) ∈ powered_buildings lineCity ∧
    gridGet lineCityCleared (0, 2) = Cell.empty ∧
    (0, 2) ∈ lineCityCleared.power_network ∧
    (0, 4) ∈ powered_buildings lineCityCleared := by
  decide

/-! ## C4: zoning and building. -/

theorem unlock_achievement_money (c : City) (a : AchDef) :
    (unlock_achievement c a).money = c.money ∨
    (unlock_achievement c a).money = c.money + 5000 := by
  unfold unlock_achievement
  split
  · exact Or.inr rfl
  · exact Or.inl rfl

theorem ach_step_money (stats : Stats) (c : City) (a : AchDef) :
    (ach_step stats c a).money = c.money ∨
    (ach_step stats c a).money = c.money + 5000 := by
  unfold ach_step
  split
  · exact unlock_achievement_money c a
  · exact Or.inl rfl

theorem ach_foldl_money (stats : Stats) (L : List AchDef) (c : City) :
    ∃ k : ℕ, (L.foldl (ach_step stats) c).money = c.money + 5000 * k := by
  induction L generalizing c with
  | nil => exact ⟨0, by simp⟩
  | cons a rest ih =>
    rw [List.foldl_cons]
    obtain ⟨k, hk⟩ := ih (ach_step stats c a)
    rcases ach_step_money stats c a with h | h
    · exact ⟨k, by rw [hk, h]⟩
    · refine ⟨k + 1, ?_⟩
      rw [hk, h]
      push_cast
      ring

/-- `check_achievements` changes money only by crediting 5000 per newly
unlocked high-tier achievement. -/
theorem check_achievements_money (c : City) :
    ∃ k : ℕ, (check_achievements c).money = c.money + 5000 * k :=
  ach_foldl_money (get_statistics c) all_achievements c

set_option maxRecDepth 20000 in
unseal Rat.add Rat.sub Rat.mul Rat.inv in
/-- C4 counterexample: in the engine state restored from a snapshot with money
100500 (all other fields defaulted), zoning (0,0) residential succeeds and
debits the 500 catalog cost, but the subsequent achievement re-evaluation
newly unlocks `economic_boom` and credits its one-time 5000 bonus, so the
final money is 105000, not 100500 − 500 as the claim requires. -/
theorem C4_bonus_breaks_exact_debit :
    (zone_land (from_dict { Snapshot.empty with money := some 100500 }) 0 0 Cell.R).1 =
      true ∧
    (from_dict { Snapshot.empty with money := some 100500 }).money = 100500 ∧
    building_costs Cell.R = 500 ∧
    (zone_land (from_dict { Snapshot.empty with money := some 100500 }) 0 0 Cell.R).2.money
      = 105000 ∧
    (105000 : ℚ) ≠ 100500 - 500 := by
  refine ⟨by decide, by decide, by decide, by decide, by decide⟩

/-- C4 (amended): zone/build on an out-of-range position, on an occupied cell,
or with money below the catalog cost returns failure and leaves the engine
unchanged; with a valid empty position, a kind recognized by the operation,
and money at least the cost, the operation succeeds, debits exactly the
catalog cost, and then re-evaluates achievements, which may additionally
credit a one-time 5000 bonus per newly unlocked high-tier achievement (so the
net change to money is cost − 5000·k for some k ≥ 0, and exactly the cost when
no bonus achievement unlocks). -/
theorem C4_zone_build_spec (c : City) (row col : Int) (kind : Cell) :
    (is_valid_position row col = false →
      zone_land c row col kind = (false, c) ∧
      build_structure c row col kind = (false, c)) ∧
    (is_valid_position row col = true → gridGet c (row, col) ≠ Cell.empty →
      zone_land c row col kind = (false, c) ∧
      build_structure c row col kind = (false, c)) ∧
    (c.money < building_costs kind →
      zone_land c row col kind = (false, c) ∧
      build_structure c row col kind = (false, c)) ∧
    (is_valid_position row col = true → gridGet c (row, col) = Cell.empty →
      kind ∈ valid_zones → building_costs kind ≤ c.money →
      zone_land c row col kind = (true, check_achievements
        { c with money := c.money - building_costs kind,
                 grid := gridSet c (row, col) kind }) ∧
      ∃ k : ℕ, (zone_land c row col kind).2.money =
        c.money - building_costs kind + 5000 * k) ∧
    (is_valid_position row col = true → gridGet c (row, col) = Cell.empty →
      kind ∈ valid_buildings → building_costs kind ≤ c.money →
      build_structure c row col kind = (true, check_achievements
        { c with money := c.money - building_costs kind,
                 grid := gridSet c (row, col) kind }) ∧
      ∃ k : ℕ, (build_structure c row col kind).2.money =
        c.money - building_costs kind + 5000 * k) := by
  refine ⟨?_, ?_, ?_, ?_, ?_⟩
  · intro hval
    constructor
    · unfold zone_land
      rw [if_pos (by simp [hval])]
    · unfold build_structure
      rw [if_pos (by simp [hval])]
  · intro hval hocc
    have hemp : is_cell_empty c row col = false := by
      unfold is_cell_empty
      rw [if_neg (by simp [hval])]
      simpa using hocc
    constructor
    · unfold zone_land
      rw [if_neg (by simp [hval]), if_pos (by simp [hemp])]
    · unfold build_structure
      rw [if_neg (by simp [hval]), if_pos (by simp [hemp])]
  · intro hmoney
    constructor
    · simp only [zone_land]
      repeat' split
      all_goals first
        | rfl
        | exact absurd hmoney (by assumption)
    · simp only [build_structure]
      repeat' split
      all_goals first
        | rfl
        | exact absurd hmoney (by assumption)
  · intro hval hemp hkind hmoney
    have hempt : is_cell_empty c row col = true := by
      unfold is_cell_empty
      rw [if_neg (by simp [hval])]
      simp [hemp]
    have heq : zone_land c row col kind = (true, check_achievements
        { c with money := c.money - building_costs kind,
                 grid := gridSet c (row, col) kind }) := by
      unfold zone_land
      rw [if_neg (by simp [hval]), if_neg (by simp [hempt]),
        if_neg (by simp [hkind]), if_neg (not_lt.2 hmoney)]
    refine ⟨heq, ?_⟩
    obtain ⟨k, hk⟩ := check_achievements_money
      { c with money := c.money - building_costs kind,
               grid := gridSet c (row, col) kind }
    exact ⟨k, by rw [heq]; exact hk⟩
  · intro hval hemp hkind hmoney
    have hempt : is_cell_empty c row col = true := by
      unfold is_cell_empty
      rw [if_neg (by simp [hval])]
      simp [hemp]
    have heq : build_structure c row col kind = (true, check_achievements
        { c with money := c.money - building_costs kind,
                 grid := gridSet c (row, col) kind }) := by
      unfold build_structure
      rw [if_neg (by simp [hval]), if_neg (by simp [hempt]),
        if_neg (by simp [hkind]), if_neg (not_lt.2 hmoney)]
    refine ⟨heq, ?_⟩
    obtain ⟨k, hk⟩ := check_achievements_money
      { c with money := c.money - building_costs kind,
               grid := gridSet c (row, col) kind }
    exact ⟨k, by rw [heq]; exact hk⟩

set_option maxRecDepth 20000 in
unseal Rat.add Rat.sub Rat.mul Rat.inv in
/-- Witness for `C4_zone_build_spec`: zoning (0,0) residential on a fresh city
succeeds with exact debit 500 (no bonus unlocks beyond the zero-money ones),
and an out-of-range zone fails unchanged. -/
theorem C4_zone_build_spec_witness :
    (is_valid_position 0 0 = true ∧ gridGet City.init (0, 0) = Cell.empty ∧
      Cell.R ∈ valid_zones ∧ building_costs Cell.R ≤ City.init.money) ∧
    zone_land City.init 0 0 Cell.R = (true, check_achievements
      { City.init with money := City.init.money - building_costs Cell.R,
                       grid := gridSet City.init (0, 0) Cell.R }) ∧
    (zone_land City.init 0 0 Cell.R).2.money = 9500 ∧
    is_valid_position 7 0 = false ∧
    zone_land City.init 7 0 Cell.R = (false, City.init) := by
  refine ⟨by decide, ?_, by decide, by decide, ?_⟩
  · exact ((C4_zone_build_spec City.init 0 0 Cell.R).2.2.2.1 (by decide) (by decide)
      (by decide) (by decide)).1
  · exact ((C4_zone_build_spec City.init 7 0 Cell.R).1 (by decide)).1

/-! ## C6: money non-negativity. -/

theorem check_achievements_money_nonneg (c : City) (h : 0 ≤ c.money) :
    0 ≤ (check_achievements c).money := by
  obtain ⟨k, hk⟩ := check_achievements_money c
  rw [hk]
  have h5 : (0 : ℚ) ≤ 5000 := by norm_num
  exact add_nonneg h (mul_nonneg h5 (Nat.cast_nonneg k))

theorem apply_event_money_nonneg (c : City) (e : EventData) (h : 0 ≤ c.money) :
    0 ≤ (apply_event c e).money := by
  unfold apply_event
  cases hm : e.eff_money <;> cases hh : e.eff_happiness <;> cases hmu : e.eff_mult <;>
    first
      | exact h
      | exact le_max_left 0 _

theorem trigger_random_event_money_nonneg (c : City) (roll : ℚ) (h : 0 ≤ c.money) :
    0 ≤ (trigger_random_event c roll).money := by
  unfold trigger_random_event
  cases hp : event_pick event_catalog roll 0 with
  | none => exact h
  | some e => exact apply_event_money_nonneg c e h

theorem road_retile_step_money (acc : City) (p : GPos) :
    (road_retile_step acc p).money = acc.money := by
  unfold road_retile_step
  split <;> rfl

theorem update_road_connections_money (c : City) :
    (update_road_connections c).money = c.money := by
  unfold update_road_connections
  suffices h : ∀ (L : List GPos) (acc : City), (L.foldl road_retile_step acc).money = acc.money by
    exact h c.road_network c
  intro L
  induction L with
  | nil => exact fun acc => rfl
  | cons q rest ih =>
    intro acc
    rw [List.foldl_cons, ih, road_retile_step_money]

theorem upd_step_money (pw : List GPos) (acc : City) (p : GPos) :
    (upd_step pw acc p).money = acc.money := by
  simp only [upd_step]
  repeat' split
  all_goals rfl

theorem update_power_distribution_money (c : City) :
    (update_power_distribution c).money = c.money := by
  unfold update_power_distribution
  suffices h : ∀ (L : List GPos) (acc : City),
      (L.foldl (upd_step (powered_buildings c)) acc).money = acc.money by
    exact h allPositions c
  intro L
  induction L with
  | nil => exact fun acc => rfl
  | cons q rest ih =>
    intro acc
    rw [List.foldl_cons, ih, upd_step_money]

set_option maxRecDepth 20000 in
unseal Rat.add Rat.sub Rat.mul Rat.inv in
/-- C6 counterexample: spending down to money 0 (university costs exactly the
starting 10000) and then triggering a fire disaster leaves money at −500: the
disaster deductions are applied without the floor clamp. -/
theorem C6_disaster_money_negative :
    (build_structure City.init 0 0 Cell.university).1 = true ∧
    (build_structure City.init 0 0 Cell.university).2.money = 0 ∧
    (trigger_disaster (build_structure City.init 0 0 Cell.university).2 "fire" 0 0).1 =
      true ∧
    (trigger_disaster (build_structure City.init 0 0 Cell.university).2 "fire" 0 0).2.money
      < 0 := by
  refine ⟨by decide, by decide, by decide, by decide⟩

/-- C6 (amended): money stays non-negative across zoning/building (which only
debit when affordable, and whose achievement bonuses only add), daily economy,
yearly economy (`advance_year`, whose final balance is floor-clamped), event
application and the event roll; it is NOT preserved by disaster creation or
per-day disaster effects, which subtract fixed amounts without clamping (see
the counterexample). -/
theorem C6_money_nonneg (c : City) (h : 0 ≤ c.money) (row col : Int) (kind : Cell)
    (e : EventData) (doEvent : Bool) (roll : ℚ) :
    0 ≤ (zone_land c row col kind).2.money ∧
    0 ≤ (build_structure c row col kind).2.money ∧
    0 ≤ (zone_2x2_block c row col kind).2.money ∧
    0 ≤ (build_road_tile c row col).2.money ∧
    0 ≤ (build_power_line c row col).2.money ∧
    0 ≤ (clear_cell c row col).2.money ∧
    0 ≤ (calculate_daily_economy c).money ∧
    0 ≤ (apply_event c e).money ∧
    0 ≤ (trigger_random_event c roll).money ∧
    0 ≤ (advance_year c doEvent roll).money := by
  refine ⟨?_, ?_, ?_, ?_, ?_, ?_, ?_, ?_, ?_, ?_⟩
  · simp only [zone_land]
    repeat' split
    all_goals try (with_reducible exact h)
    show 0 ≤ (check_achievements { c with money := c.money - building_costs kind, grid := gridSet c (row, col) kind }).money
    apply check_achievements_money_nonneg
    show 0 ≤ c.money - building_costs kind
    linarith
  · simp only [build_structure]
    repeat' split
    all_goals try (with_reducible exact h)
    show 0 ≤ (check_achievements { c with money := c.money - building_costs kind, grid := gridSet c (row, col) kind }).money
    apply check_achievements_money_nonneg
    show 0 ≤ c.money - building_costs kind
    linarith
  · simp only [zone_2x2_block]
    repeat' split
    all_goals try (with_reducible exact h)
    show 0 ≤ c.money - building_costs kind * 4
    linarith
  · simp only [build_road_tile]
    repeat' split
    all_goals try (with_reducible exact h)
    show 0 ≤ (update_road_connections { c with money := c.money - building_costs Cell.road, grid := gridSet c (row, col) Cell.road, road_network := sadd c.road_network (row, col) }).money
    rw [update_road_connections_money]
    show 0 ≤ c.money - building_costs Cell.road
    linarith
  · simp only [build_power_line]
    repeat' split
    all_goals try (with_reducible exact h)
    show 0 ≤ (update_power_distribution { c with money := c.money - 100, power_network := sadd c.power_network (row, col), grid := gridSet c (row, col) Cell.powerLine }).money
    rw [update_power_distribution_money]
    show 0 ≤ c.money - 100
    linarith
  · simp only [clear_cell]
    repeat' split
    all_goals exact h
  · exact le_max_left 0 _
  · exact apply_event_money_nonneg c e h
  · exact trigger_random_event_money_nonneg c roll h
  · unfold advance_year
    apply check_achievements_money_nonneg
    cases doEvent
    · exact le_max_left 0 _
    · exact trigger_random_event_money_nonneg _ roll (le_max_left 0 _)

set_option maxRecDepth 20000 in
unseal Rat.add Rat.sub Rat.mul Rat.inv in
/-- Witness for `C6_money_nonneg`: the fresh city has non-negative money, and
so do the results of a zoning action and a daily-economy tick on it. -/
theorem C6_money_nonneg_witness :
    (0 : ℚ) ≤ City.init.money ∧
    0 ≤ (zone_land City.init 0 0 Cell.R).2.money ∧
    0 ≤ (calculate_daily_economy City.init).money := by
  have h := C6_money_nonneg City.init (by decide) 0 0 Cell.R
    ⟨"Festival", "positive", "x", 20/100, some 500, some 15, none, none, none⟩ false 0
  exact ⟨by decide, h.1, h.2.2.2.2.2.2.1⟩

/-! ## C3: snapshot round trip.

The claim: for every state reachable by a sequence of valid operations,
`from_dict (to_dict c)` reconstructs the state exactly (hence every subsequent
query and operation returns identical results), and `from_dict` defaults every
missing record field to the fresh-construction value. -/

/-- Well-formedness of a state: every key of the three position-keyed maps and
every member of `road_network` is a valid position. These are the fields whose
serialisation round trip is not verbatim (string keys), plus the network whose
members seed new traffic keys. -/
def WF (c : City) : Prop :=
  (∀ e ∈ c.building_states, is_valid_position e.1.1 e.1.2 = true) ∧
  (∀ e ∈ c.desirability_scores, is_valid_position e.1.1 e.1.2 = true) ∧
  (∀ e ∈ c.traffic_levels, is_valid_position e.1.1 e.1.2 = true) ∧
  (∀ p ∈ c.road_network, is_valid_position p.1 p.2 = true)

/-- States reachable from a fresh `CitySimulation()` by the engine operations. -/
inductive Reachable : City → Prop where
  | init : Reachable City.init
  | zoneLand (c : City) (row col : Int) (kind : Cell) :
      Reachable c → Reachable (zone_land c row col kind).2
  | buildStructure (c : City) (row col : Int) (kind : Cell) :
      Reachable c → Reachable (build_structure c row col kind).2
  | clearCell (c : City) (row col : Int) :
      Reachable c → Reachable (clear_cell c row col).2
  | zone2x2 (c : City) (row col : Int) (kind : Cell) :
      Reachable c → Reachable (zone_2x2_block c row col kind).2
  | buildRoadTile (c : City) (row col : Int) :
      Reachable c → Reachable (build_road_tile c row col).2
  | buildPowerLine (c : City) (row col : Int) :
      Reachable c → Reachable (build_power_line c row col).2
  | triggerDisaster (c : City) (dt : String) (row col : Int) :
      Reachable c → Reachable (trigger_disaster c dt row col).2
  | processDisasters (c : City) : Reachable c → Reachable (process_disasters c)
  | updateRoadConnections (c : City) : Reachable c → Reachable (update_road_connections c)
  | updatePowerDistribution (c : City) : Reachable c → Reachable (update_power_distribution c)
  | updateBuildingStates (c : City) : Reachable c → Reachable (update_building_states c)
  | calculateTraffic (c : City) : Reachable c → Reachable (calculate_traffic c)
  | calculateDailyEconomy (c : City) : Reachable c → Reachable (calculate_daily_economy c)
  | processEvents (c : City) : Reachable c → Reachable (process_events c)
  | triggerRandomEvent (c : City) (roll : ℚ) : Reachable c → Reachable (trigger_random_event c roll)
  | advanceYear (c : City) (doEvent : Bool) (roll : ℚ) :
      Reachable c → Reachable (advance_year c doEvent roll)
  | calculateIncome (c : City) : Reachable c → Reachable (calculate_income c)
  | calculateExpenses (c : City) : Reachable c → Reachable (calculate_expenses c)

theorem mem_pset_elim {V : Type} (m : List (GPos × V)) (p : GPos) (v : V) :
    ∀ e ∈ pset m p v, e.1 = p ∨ e ∈ m := by
  induction m with
  | nil =>
    intro e he
    simp only [pset, List.mem_singleton] at he
    subst he
    exact Or.inl rfl
  | cons hd rest ih =>
    obtain ⟨q, w⟩ := hd
    intro e he
    simp only [pset] at he
    split at he
    · rcases List.mem_cons.mp he with h1 | h1
      · subst h1; exact Or.inl rfl
      · exact Or.inr (List.mem_cons_of_mem _ h1)
    · rcases List.mem_cons.mp he with h1 | h1
      · subst h1; exact Or.inr (List.mem_cons_self _ _)
      · rcases ih e h1 with h2 | h2
        · exact Or.inl h2
        · exact Or.inr (List.mem_cons_of_mem _ h2)

theorem mem_premove {V : Type} (m : List (GPos × V)) (p : GPos) :
    ∀ e ∈ premove m p, e ∈ m := by
  intro e he
  simp only [premove] at he
  exact (List.mem_filter.mp he).1

theorem pset_valid {V : Type} (m : List (GPos × V)) (p : GPos) (v : V)
    (hm : ∀ e ∈ m, is_valid_position e.1.1 e.1.2 = true)
    (hp : is_valid_position p.1 p.2 = true) :
    ∀ e ∈ pset m p v, is_valid_position e.1.1 e.1.2 = true := by
  intro e he
  rcases mem_pset_elim m p v e he with h | h
  · rw [h]; exact hp
  · exact hm e h

theorem WF_set_bs (c : City) (p : GPos) (s : BState)
    (hp : is_valid_position p.1 p.2 = true) (h : WF c) :
    WF { c with building_states := pset c.building_states p s } :=
  ⟨pset_valid _ _ _ h.1 hp, h.2.1, h.2.2.1, h.2.2.2⟩

theorem WF_set_des (c : City) (p : GPos) (s : Int)
    (hp : is_valid_position p.1 p.2 = true) (h : WF c) :
    WF { c with desirability_scores := pset c.desirability_scores p s } :=
  ⟨h.1, pset_valid _ _ _ h.2.1 hp, h.2.2.1, h.2.2.2⟩

theorem WF_set_traffic (c : City) (p : GPos) (n : Int)
    (hp : is_valid_position p.1 p.2 = true) (h : WF c) :
    WF { c with traffic_levels := pset c.traffic_levels p n } :=
  ⟨h.1, h.2.1, pset_valid _ _ _ h.2.2.1 hp, h.2.2.2⟩

theorem WF_foldl_any {α : Type} (f : City → α → City)
    (hf : ∀ acc a, WF acc → WF (f acc a)) :
    ∀ (l : List α) (acc : City), WF acc → WF (l.foldl f acc) := by
  intro l
  induction l with
  | nil => intro acc h; exact h
  | cons a rest ih => intro acc h; exact ih (f acc a) (hf acc a h)

theorem WF_foldl_pos (f : City → GPos → City)
    (hf : ∀ acc p, is_valid_position p.1 p.2 = true → WF acc → WF (f acc p)) :
    ∀ (l : List GPos), (∀ p ∈ l, is_valid_position p.1 p.2 = true) →
      ∀ acc : City, WF acc → WF (l.foldl f acc) := by
  intro l
  induction l with
  | nil => intro _ acc h; exact h
  | cons p rest ih =>
    intro hl acc h
    exact ih (fun q hq => hl q (List.mem_cons_of_mem _ hq)) _
      (hf acc p (hl p (List.mem_cons_self _ _)) h)

theorem allPositions_valid : ∀ p ∈ allPositions, is_valid_position p.1 p.2 = true :=
  fun p hp => (mem_allPositions p).mp hp

theorem WF_of_fields (c c2 : City)
    (h1 : c2.building_states = c.building_states)
    (h2 : c2.desirability_scores = c.desirability_scores)
    (h3 : c2.traffic_levels = c.traffic_levels)
    (h4 : c2.road_network = c.road_network)
    (h : WF c) : WF c2 := by
  refine ⟨?_, ?_, ?_, ?_⟩
  · rw [h1]; exact h.1
  · rw [h2]; exact h.2.1
  · rw [h3]; exact h.2.2.1
  · rw [h4]; exact h.2.2.2

theorem WF_check_achievements (c : City) (h : WF c) : WF (check_achievements c) := by
  simp only [check_achievements]
  apply WF_foldl_any
  · intro acc a h2
    simp only [ach_step, unlock_achievement]
    repeat' split
    all_goals exact h2
  · exact h

theorem WF_zone_land (c : City) (row col : Int) (kind : Cell) (h : WF c) :
    WF (zone_land c row col kind).2 := by
  simp only [zone_land]
  repeat' split
  all_goals try (with_reducible exact h)
  with_reducible show WF (check_achievements { c with money := c.money - building_costs kind, grid := gridSet c (row, col) kind })
  apply WF_check_achievements
  exact ⟨h.1, h.2.1, h.2.2.1, h.2.2.2⟩

theorem WF_build_structure (c : City) (row col : Int) (kind : Cell) (h : WF c) :
    WF (build_structure c row col kind).2 := by
  simp only [build_structure]
  repeat' split
  all_goals try (with_reducible exact h)
  with_reducible show WF (check_achievements { c with money := c.money - building_costs kind, grid := gridSet c (row, col) kind })
  apply WF_check_achievements
  exact ⟨h.1, h.2.1, h.2.2.1, h.2.2.2⟩

theorem WF_clear_cell (c : City) (row col : Int) (h : WF c) :
    WF (clear_cell c row col).2 := by
  simp only [clear_cell]
  repeat' split
  all_goals exact h

theorem valid_2x2 (row col : Int)
    (h : (is_valid_position row col && is_valid_position (row + 1) (col + 1)) = true) :
    is_valid_position row col = true ∧ is_valid_position row (col + 1) = true ∧
    is_valid_position (row + 1) col = true ∧ is_valid_position (row + 1) (col + 1) = true := by
  simp only [is_valid_position, GRID_SIZE, Bool.and_eq_true, decide_eq_true_eq] at h ⊢
  omega

theorem WF_zone_2x2_block (c : City) (row col : Int) (kind : Cell) (h : WF c) :
    WF (zone_2x2_block c row col kind).2 := by
  simp only [zone_2x2_block]
  repeat' split
  all_goals try exact h
  rename_i hv hemp hmon
  rw [not_not] at hv
  obtain ⟨h1, h2, h3, h4⟩ := valid_2x2 row col hv
  apply WF_foldl_pos
  · intro acc p hp h5
    exact ⟨pset_valid _ _ _ h5.1 hp, h5.2.1, h5.2.2.1, h5.2.2.2⟩
  · intro p hp
    simp only [List.mem_cons, List.not_mem_nil, or_false] at hp
    rcases hp with rfl | rfl | rfl | rfl
    · exact h1
    · exact h2
    · exact h3
    · exact h4
  · exact h

theorem WF_update_road_connections (c : City) (h : WF c) :
    WF (update_road_connections c) := by
  simp only [update_road_connections]
  apply WF_foldl_any
  · intro acc p h2
    simp only [road_retile_step]
    split
    · exact h2
    · exact h2
  · exact h

theorem WF_build_road_tile (c : City) (row col : Int) (h : WF c) :
    WF (build_road_tile c row col).2 := by
  simp only [build_road_tile]
  repeat' split
  all_goals try exact h
  rename_i hv hmon
  rw [not_not] at hv
  simp only [Bool.and_eq_true] at hv
  show WF (update_road_connections { c with money := c.money - building_costs Cell.road, grid := gridSet c (row, col) Cell.road, road_network := sadd c.road_network (row, col) })
  apply WF_update_road_connections
  refine ⟨h.1, h.2.1, h.2.2.1, ?_⟩
  intro q hq
  rcases (mem_sadd _ _ _).mp hq with h1 | h1
  · exact h.2.2.2 q h1
  · subst h1
    exact hv.1

theorem WF_upd_step (powered : List GPos) (acc : City) (p : GPos)
    (hp : is_valid_position p.1 p.2 = true) (h : WF acc) :
    WF (upd_step powered acc p) := by
  simp only [upd_step]
  repeat' split
  all_goals first
    | exact h
    | exact ⟨pset_valid _ _ _ h.1 hp, h.2.1, h.2.2.1, h.2.2.2⟩

theorem WF_update_power_distribution (c : City) (h : WF c) :
    WF (update_power_distribution c) := by
  simp only [update_power_distribution]
  apply WF_foldl_pos
  · intro acc p hp h2
    exact WF_upd_step _ acc p hp h2
  · exact allPositions_valid
  · exact h

theorem WF_build_power_line (c : City) (row col : Int) (h : WF c) :
    WF (build_power_line c row col).2 := by
  simp only [build_power_line]
  repeat' split
  all_goals try (with_reducible exact h)
  with_reducible show WF (update_power_distribution { c with money := c.money - 100, power_network := sadd c.power_network (row, col), grid := gridSet c (row, col) Cell.powerLine })
  apply WF_update_power_distribution
  exact ⟨h.1, h.2.1, h.2.2.1, h.2.2.2⟩

theorem WF_ubs_step (acc : City) (p : GPos)
    (hp : is_valid_position p.1 p.2 = true) (h : WF acc) :
    WF (ubs_step acc p) := by
  simp only [ubs_step]
  repeat' split
  all_goals first
    | exact h
    | exact WF_set_des acc p _ hp h
    | exact WF_set_bs _ p _ hp (WF_set_des acc p _ hp h)

theorem WF_update_building_states (c : City) (h : WF c) :
    WF (update_building_states c) := by
  simp only [update_building_states]
  apply WF_foldl_pos
  · intro acc p hp h2
    exact WF_ubs_step acc p hp h2
  · exact allPositions_valid
  · exact h

theorem WF_traffic_walk (fuel : Nat) :
    ∀ (c : City) (cur tgt : GPos), WF c → WF (traffic_walk fuel c cur tgt) := by
  induction fuel with
  | zero => intro c cur tgt h; exact h
  | succ n ih =>
    intro c cur tgt h
    simp only [traffic_walk]
    split
    · exact h
    · apply ih
      split
      · rename_i hmem
        exact WF_set_traffic c (move_toward cur tgt) _ (h.2.2.2 _ hmem) h
      · exact h

theorem WF_calculate_traffic (c : City) (h : WF c) : WF (calculate_traffic c) := by
  simp only [calculate_traffic]
  apply WF_foldl_any
  · intro acc r h2
    simp only [commute_step]
    repeat' split
    all_goals try exact h2
    rename_i w hw
    exact WF_traffic_walk walk_fuel acc r w h2
  · refine ⟨h.1, h.2.1, ?_, h.2.2.2⟩
    intro e he
    exact absurd he (List.not_mem_nil e)

theorem WF_calculate_daily_economy (c : City) (h : WF c) :
    WF (calculate_daily_economy c) :=
  ⟨h.1, h.2.1, h.2.2.1, h.2.2.2⟩

theorem WF_calculate_income (c : City) (h : WF c) : WF (calculate_income c) :=
  ⟨h.1, h.2.1, h.2.2.1, h.2.2.2⟩

theorem WF_calculate_expenses (c : City) (h : WF c) : WF (calculate_expenses c) :=
  ⟨h.1, h.2.1, h.2.2.1, h.2.2.2⟩

theorem WF_apply_event (c : City) (e : EventData) (h : WF c) : WF (apply_event c e) := by
  simp only [apply_event]
  repeat' split
  all_goals exact h

theorem WF_trigger_random_event (c : City) (roll : ℚ) (h : WF c) :
    WF (trigger_random_event c roll) := by
  simp only [trigger_random_event]
  split
  · exact WF_apply_event c _ h
  · exact h

theorem WF_process_events (c : City) (h : WF c) : WF (process_events c) := by
  simp only [process_events]
  apply WF_foldl_any
  · intro acc e h2
    repeat' split
    all_goals exact h2
  · exact h

theorem WF_process_disasters (c : City) (h : WF c) : WF (process_disasters c) := by
  simp only [process_disasters]
  apply WF_foldl_any
  · intro acc d h2
    repeat' split
    all_goals exact h2
  · exact h

theorem WF_trigger_disaster (c : City) (dt : String) (row col : Int) (h : WF c) :
    WF (trigger_disaster c dt row col).2 := by
  simp only [trigger_disaster]
  repeat' split
  all_goals try exact h
  apply WF_foldl_any
  · intro acc q h2
    split
    · exact ⟨fun e he => h2.1 e (mem_premove _ _ e he), h2.2.1, h2.2.2.1, h2.2.2.2⟩
    · exact h2
  · exact h

theorem WF_run_sim_day (c : City) (h : WF c) : WF (run_sim_day c) :=
  WF_update_power_distribution _ (WF_process_disasters _ (WF_calculate_daily_economy _
    (WF_calculate_traffic _ (WF_update_building_states _ h))))

theorem WF_set_population (c : City) (x : Int) (h : WF c) : WF { c with population := x } :=
  ⟨h.1, h.2.1, h.2.2.1, h.2.2.2⟩

theorem WF_set_happiness (c : City) (x : Int) (h : WF c) : WF { c with happiness := x } :=
  ⟨h.1, h.2.1, h.2.2.1, h.2.2.2⟩

theorem WF_set_money (c : City) (m : ℚ) (h : WF c) : WF { c with money := m } :=
  ⟨h.1, h.2.1, h.2.2.1, h.2.2.2⟩

theorem WF_set_year (c : City) (y : Int) (h : WF c) : WF { c with current_year := y } :=
  ⟨h.1, h.2.1, h.2.2.1, h.2.2.2⟩

theorem WF_advance_year (c : City) (doEvent : Bool) (roll : ℚ) (h : WF c) :
    WF (advance_year c doEvent roll) := by
  unfold advance_year
  apply WF_check_achievements
  have hFold : WF ((List.range 365).foldl (fun acc _ => run_sim_day acc)
      { c with current_year := c.current_year + 1 }) := by
    apply WF_foldl_any
    · intro acc x h2
      exact WF_run_sim_day acc h2
    · exact WF_set_year c _ h
  cases doEvent
  · apply WF_set_money
    apply WF_calculate_expenses
    apply WF_calculate_income
    apply WF_process_events
    apply WF_set_happiness
    apply WF_set_population
    exact hFold
  · apply WF_trigger_random_event
    apply WF_set_money
    apply WF_calculate_expenses
    apply WF_calculate_income
    apply WF_process_events
    apply WF_set_happiness
    apply WF_set_population
    exact hFold

theorem WF_init : WF City.init := by
  refine ⟨?_, ?_, ?_, ?_⟩ <;> intro e he <;> exact absurd he (List.not_mem_nil e)

theorem WF_reachable (c : City) (hr : Reachable c) : WF c := by
  induction hr with
  | init => exact WF_init
  | zoneLand c row col kind hr ih => exact WF_zone_land c row col kind ih
  | buildStructure c row col kind hr ih => exact WF_build_structure c row col kind ih
  | clearCell c row col hr ih => exact WF_clear_cell c row col ih
  | zone2x2 c row col kind hr ih => exact WF_zone_2x2_block c row col kind ih
  | buildRoadTile c row col hr ih => exact WF_build_road_tile c row col ih
  | buildPowerLine c row col hr ih => exact WF_build_power_line c row col ih
  | triggerDisaster c dt row col hr ih => exact WF_trigger_disaster c dt row col ih
  | processDisasters c hr ih => exact WF_process_disasters c ih
  | updateRoadConnections c hr ih => exact WF_update_road_connections c ih
  | updatePowerDistribution c hr ih => exact WF_update_power_distribution c ih
  | updateBuildingStates c hr ih => exact WF_update_building_states c ih
  | calculateTraffic c hr ih => exact WF_calculate_traffic c ih
  | calculateDailyEconomy c hr ih => exact WF_calculate_daily_economy c ih
  | processEvents c hr ih => exact WF_process_events c ih
  | triggerRandomEvent c roll hr ih => exact WF_trigger_random_event c roll ih
  | advanceYear c doEvent roll hr ih => exact WF_advance_year c doEvent roll ih
  | calculateIncome c hr ih => exact WF_calculate_income c ih
  | calculateExpenses c hr ih => exact WF_calculate_expenses c ih

theorem decode_encode_pos : ∀ p ∈ allPositions, decode_pos (encode_pos p) = p := by decide

theorem map_roundtrip {V : Type} (m : List (GPos × V))
    (hm : ∀ e ∈ m, is_valid_position e.1.1 e.1.2 = true) :
    (m.map (fun e => (encode_pos e.1, e.2))).map (fun e => (decode_pos e.1, e.2)) = m := by
  induction m with
  | nil => rfl
  | cons e rest ih =>
    simp only [List.map_cons, List.cons.injEq]
    constructor
    · have hv := hm e (List.mem_cons_self _ _)
      have hd := decode_encode_pos e.1 ((mem_allPositions e.1).mpr hv)
      rw [hd]
    · exact ih (fun x hx => hm x (List.mem_cons_of_mem _ hx))

theorem from_dict_to_dict (c : City) (h : WF c) : from_dict (to_dict c) = c := by
  cases c with
  | mk grid year pop hap mon tax inc exp evs evh ach achh bs des pw rd tr dis drev dmain =>
    obtain ⟨h1, h2, h3, h4⟩ := h
    simp only [from_dict, to_dict, Option.getD_some, City.mk.injEq, and_true, true_and]
    exact ⟨map_roundtrip bs h1, map_roundtrip des h2, map_roundtrip tr h3⟩

theorem from_dict_empty : from_dict Snapshot.empty = City.init := rfl

/-- **C3.** For every engine state reachable from a fresh `CitySimulation()` by a
sequence of valid operations, restoring its snapshot (`from_dict (to_dict c)`)
reconstructs the state exactly — hence every subsequent query and operation
returns identical results — and `restore` defaults each missing record field to
the fresh-construction value: in particular the grid to all-empty, the year to
1, the population to 0, the happiness to 50, the money to 10000 and the tax
rate to 0.05, so an all-missing record restores to a fresh city. -/
theorem C3_snapshot_roundtrip :
    (∀ c : City, Reachable c → from_dict (to_dict c) = c) ∧
    (∀ d : Snapshot,
      (d.grid = none → (from_dict d).grid = fun _ => Cell.empty) ∧
      (d.current_year = none → (from_dict d).current_year = 1) ∧
      (d.population = none → (from_dict d).population = 0) ∧
      (d.happiness = none → (from_dict d).happiness = 50) ∧
      (d.money = none → (from_dict d).money = 10000) ∧
      (d.tax_rate = none → (from_dict d).tax_rate = 5 / 100)) ∧
    from_dict Snapshot.empty = City.init := by
  refine ⟨?_, ?_, from_dict_empty⟩
  · intro c hr
    exact from_dict_to_dict c (WF_reachable c hr)
  · intro d
    refine ⟨?_, ?_, ?_, ?_, ?_, ?_⟩ <;> intro hnone <;> simp [from_dict, hnone]

/-- Witness for `C3_snapshot_roundtrip`: the round trip is exact on the concrete
state obtained by zoning a 2×2 residential block on a fresh city (an operation
that populates `building_states`), and the all-missing record restores to a
fresh city. -/
theorem C3_snapshot_roundtrip_witness :
    from_dict (to_dict (zone_2x2_block City.init 0 0 Cell.R).2) =
      (zone_2x2_block City.init 0 0 Cell.R).2 ∧
    from_dict Snapshot.empty = City.init :=
  ⟨C3_snapshot_roundtrip.1 _ (Reachable.zone2x2 City.init 0 0 Cell.R Reachable.init),
   C3_snapshot_roundtrip.2.2⟩

end CitySim
